import Mathlib

/-!
Verification of the FlashTalk/garycli STM32 build engine (src/compiler.py):
chip resolution, linker-script and startup-code synthesis, HAL source-set
resolution, the incremental object/archive cache, and the compile
orchestrator.  Each Python function is shallowly embedded as an executable
Lean definition; file-system effects are modelled by explicit state records
and subprocess outcomes by oracle parameters.
-/

set_option maxRecDepth 100000

namespace GaryCli

/-- One row of the chip parameter table CHIP_DB (compiler.py). -/
structure ChipSpec where
  cpu : String
  flash_k : Nat
  ram_k : Nat
  define : String
  family : String
  fpu : Bool
  deriving DecidableEq, Repr

/-- CHIP_DB from compiler.py, as an insertion-ordered association list
(Python dicts preserve insertion order, which matters for the scan steps
of the lookup cascade). -/
def CHIP_DB : List (String × ChipSpec) := [
  ("STM32F103C8", ⟨"cortex-m3", 64,   20,  "STM32F103xB", "f1", false⟩),
  ("STM32F103CB", ⟨"cortex-m3", 128,  20,  "STM32F103xB", "f1", false⟩),
  ("STM32F103RB", ⟨"cortex-m3", 128,  20,  "STM32F103xB", "f1", false⟩),
  ("STM32F103RC", ⟨"cortex-m3", 256,  48,  "STM32F103xE", "f1", false⟩),
  ("STM32F103RE", ⟨"cortex-m3", 512,  64,  "STM32F103xE", "f1", false⟩),
  ("STM32F103ZE", ⟨"cortex-m3", 512,  64,  "STM32F103xE", "f1", false⟩),
  ("STM32F103VE", ⟨"cortex-m3", 512,  64,  "STM32F103xE", "f1", false⟩),
  ("STM32F100RB", ⟨"cortex-m3", 128,  8,   "STM32F100xB", "f1", false⟩),
  ("STM32F105",   ⟨"cortex-m3", 256,  64,  "STM32F105xC", "f1", false⟩),
  ("STM32F107",   ⟨"cortex-m3", 256,  64,  "STM32F107xC", "f1", false⟩),
  ("STM32F401CC", ⟨"cortex-m4", 256,  64,  "STM32F401xC", "f4", true⟩),
  ("STM32F401CE", ⟨"cortex-m4", 512,  96,  "STM32F401xE", "f4", true⟩),
  ("STM32F407VE", ⟨"cortex-m4", 512,  128, "STM32F407xx", "f4", true⟩),
  ("STM32F407VG", ⟨"cortex-m4", 1024, 128, "STM32F407xx", "f4", true⟩),
  ("STM32F407ZG", ⟨"cortex-m4", 1024, 128, "STM32F407xx", "f4", true⟩),
  ("STM32F411CE", ⟨"cortex-m4", 512,  128, "STM32F411xE", "f4", true⟩),
  ("STM32F429ZI", ⟨"cortex-m4", 2048, 256, "STM32F429xx", "f4", true⟩),
  ("STM32F446RE", ⟨"cortex-m4", 512,  128, "STM32F446xx", "f4", true⟩),
  ("STM32F030F4", ⟨"cortex-m0", 16,   4,   "STM32F030x6", "f0", false⟩),
  ("STM32F030C8", ⟨"cortex-m0", 64,   8,   "STM32F030x8", "f0", false⟩),
  ("STM32F072RB", ⟨"cortex-m0", 128,  16,  "STM32F072xB", "f0", false⟩),
  ("STM32F303CC", ⟨"cortex-m4", 256,  40,  "STM32F303xC", "f3", true⟩),
  ("STM32F303RE", ⟨"cortex-m4", 512,  64,  "STM32F303xE", "f3", true⟩)]

/-- Python str.upper() (ASCII-faithful; all strings involved are ASCII). -/
def pyUpper (s : String) : String := ⟨s.data.map Char.toUpper⟩

/-- chip_name.upper().replace("-", "").replace(" ", "") from _lookup_chip. -/
def normalizeChip (s : String) : String :=
  ⟨(pyUpper s).data.filter (fun c => !(c == '-' || c == ' '))⟩

/-- Python s[:-n] for n greater than 0 (drop the last n characters). -/
def pyDropRight (s : String) (n : Nat) : String :=
  ⟨s.data.take (s.data.length - n)⟩

/-- Python s[:n] (keep the first n characters). -/
def pyTakeLeft (s : String) (n : Nat) : String := ⟨s.data.take n⟩

/-- Dictionary membership plus indexing: CHIP_DB[name] when name is a key. -/
def dbFind (name : String) : Option ChipSpec :=
  (CHIP_DB.find? (fun p => p.1 == name)).map (fun p => p.2)

/-- name[:-suffix_len] if len(name) greater than suffix_len else name
(the suffix-stripping step of _lookup_chip). -/
def stripKey (name : String) (n : Nat) : String :=
  if n < name.length then pyDropRight name n else name

def isUpperAZ (c : Char) : Bool := 'A' ≤ c && c ≤ 'Z'

def isDigit09 (c : Char) : Bool := '0' ≤ c && c ≤ '9'

/-- re.match of the pattern STM32[A-Z] followed by three digits, anchored at
the start of the string, returning the matched 9-character group. -/
def famPrefix (name : String) : Option String :=
  match name.data with
  | 'S' :: 'T' :: 'M' :: '3' :: '2' :: a :: d1 :: d2 :: d3 :: _ =>
    if isUpperAZ a && isDigit09 d1 && isDigit09 d2 && isDigit09 d3 then
      some ⟨['S', 'T', 'M', '3', '2', a, d1, d2, d3]⟩
    else none
  | _ => none

/-- The matching cascade of _lookup_chip, applied to the normalized name:
exact lookup, suffix stripping (2 characters then 1), table-key-prefix
scan, and family-prefix regex fallback; first success wins, None when
nothing matches. -/
def lookupChipName (name : String) : Option ChipSpec :=
  (dbFind name).orElse (fun _ =>
  (dbFind (stripKey name 2)).orElse (fun _ =>
  (dbFind (stripKey name 1)).orElse (fun _ =>
  ((CHIP_DB.find? (fun p => p.1.data.isPrefixOf name.data)).map (fun p => p.2)).orElse (fun _ =>
  match famPrefix name with
  | some pre => (CHIP_DB.find? (fun p => pre.data.isPrefixOf p.1.data)).map (fun p => p.2)
  | none => none))))

/-- _lookup_chip from compiler.py: normalize then run the cascade. -/
def lookupChip (chip_name : String) : Option ChipSpec :=
  lookupChipName (normalizeChip chip_name)

/-- The default spec used by set_chip for unknown chips: CHIP_DB["STM32F103C8"]. -/
def defaultChipSpec : ChipSpec := ⟨"cortex-m3", 64, 20, "STM32F103xB", "f1", false⟩

/-- _F1_IRQ_NAMES from compiler.py (none encodes Python None, a reserved slot). -/
def F1_IRQ_NAMES : List (Option String) := [
  some "WWDG_IRQHandler",            some "PVD_IRQHandler",
  some "TAMPER_IRQHandler",          some "RTC_IRQHandler",
  some "FLASH_IRQHandler",           some "RCC_IRQHandler",
  some "EXTI0_IRQHandler",           some "EXTI1_IRQHandler",
  some "EXTI2_IRQHandler",           some "EXTI3_IRQHandler",
  some "EXTI4_IRQHandler",
  some "DMA1_Channel1_IRQHandler",   some "DMA1_Channel2_IRQHandler",
  some "DMA1_Channel3_IRQHandler",   some "DMA1_Channel4_IRQHandler",
  some "DMA1_Channel5_IRQHandler",   some "DMA1_Channel6_IRQHandler",
  some "DMA1_Channel7_IRQHandler",   some "ADC1_2_IRQHandler",
  some "USB_HP_CAN1_TX_IRQHandler",  some "USB_LP_CAN1_RX0_IRQHandler",
  some "CAN1_RX1_IRQHandler",        some "CAN1_SCE_IRQHandler",
  some "EXTI9_5_IRQHandler",
  some "TIM1_BRK_IRQHandler",        some "TIM1_UP_IRQHandler",
  some "TIM1_TRG_COM_IRQHandler",    some "TIM1_CC_IRQHandler",
  some "TIM2_IRQHandler",            some "TIM3_IRQHandler",
  some "TIM4_IRQHandler",
  some "I2C1_EV_IRQHandler",         some "I2C1_ER_IRQHandler",
  some "I2C2_EV_IRQHandler",         some "I2C2_ER_IRQHandler",
  some "SPI1_IRQHandler",            some "SPI2_IRQHandler",
  some "USART1_IRQHandler",          some "USART2_IRQHandler",
  some "USART3_IRQHandler",          some "EXTI15_10_IRQHandler",
  some "RTC_Alarm_IRQHandler",       some "USBWakeUp_IRQHandler",
  some "TIM8_BRK_IRQHandler",        some "TIM8_UP_IRQHandler",
  some "TIM8_TRG_COM_IRQHandler",    some "TIM8_CC_IRQHandler",
  some "ADC3_IRQHandler",            some "FSMC_IRQHandler",
  some "SDIO_IRQHandler",            some "TIM5_IRQHandler",
  some "SPI3_IRQHandler",            some "UART4_IRQHandler",
  some "UART5_IRQHandler",           some "TIM6_IRQHandler",
  some "TIM7_IRQHandler",
  some "DMA2_Channel1_IRQHandler",   some "DMA2_Channel2_IRQHandler",
  some "DMA2_Channel3_IRQHandler",   some "DMA2_Channel4_5_IRQHandler",
  none, none, none, none, none, none, none, none]

/-- _F0_IRQ_NAMES from compiler.py. -/
def F0_IRQ_NAMES : List (Option String) := [
  some "WWDG_IRQHandler",                some "PVD_VDDIO2_IRQHandler",
  some "RTC_IRQHandler",                 some "FLASH_IRQHandler",
  some "RCC_CRS_IRQHandler",             some "EXTI0_1_IRQHandler",
  some "EXTI2_3_IRQHandler",             some "EXTI4_15_IRQHandler",
  some "TSC_IRQHandler",                 some "DMA1_Channel1_IRQHandler",
  some "DMA1_Channel2_3_IRQHandler",     some "DMA1_Channel4_5_6_7_IRQHandler",
  some "ADC1_COMP_IRQHandler",           some "TIM1_BRK_UP_TRG_COM_IRQHandler",
  some "TIM1_CC_IRQHandler",             some "TIM2_IRQHandler",
  some "TIM3_IRQHandler",                some "TIM6_DAC_IRQHandler",
  some "TIM7_IRQHandler",                some "TIM14_IRQHandler",
  some "TIM15_IRQHandler",               some "TIM16_IRQHandler",
  some "TIM17_IRQHandler",               some "I2C1_IRQHandler",
  some "I2C2_IRQHandler",                some "SPI1_IRQHandler",
  some "SPI2_IRQHandler",                some "USART1_IRQHandler",
  some "USART2_IRQHandler",              some "USART3_4_IRQHandler",
  some "CEC_CAN_IRQHandler",             some "USB_IRQHandler"]

/-- _F3_IRQ_NAMES from compiler.py. -/
def F3_IRQ_NAMES : List (Option String) := [
  some "WWDG_IRQHandler",            some "PVD_IRQHandler",
  some "TAMP_STAMP_IRQHandler",      some "RTC_WKUP_IRQHandler",
  some "FLASH_IRQHandler",           some "RCC_IRQHandler",
  some "EXTI0_IRQHandler",           some "EXTI1_IRQHandler",
  some "EXTI2_TSC_IRQHandler",       some "EXTI3_IRQHandler",
  some "EXTI4_IRQHandler",
  some "DMA1_Channel1_IRQHandler",   some "DMA1_Channel2_IRQHandler",
  some "DMA1_Channel3_IRQHandler",   some "DMA1_Channel4_IRQHandler",
  some "DMA1_Channel5_IRQHandler",   some "DMA1_Channel6_IRQHandler",
  some "DMA1_Channel7_IRQHandler",   some "ADC1_2_IRQHandler",
  some "USB_HP_CAN1_TX_IRQHandler",  some "USB_LP_CAN1_RX0_IRQHandler",
  some "CAN1_RX1_IRQHandler",        some "CAN1_SCE_IRQHandler",
  some "EXTI9_5_IRQHandler",
  some "TIM1_BRK_TIM15_IRQHandler",  some "TIM1_UP_TIM16_IRQHandler",
  some "TIM1_TRG_COM_TIM17_IRQHandler", some "TIM1_CC_IRQHandler",
  some "TIM2_IRQHandler",            some "TIM3_IRQHandler",
  some "TIM4_IRQHandler",
  some "I2C1_EV_IRQHandler",         some "I2C1_ER_IRQHandler",
  some "I2C2_EV_IRQHandler",         some "I2C2_ER_IRQHandler",
  some "SPI1_IRQHandler",            some "SPI2_IRQHandler",
  some "USART1_IRQHandler",          some "USART2_IRQHandler",
  some "USART3_IRQHandler",          some "EXTI15_10_IRQHandler",
  some "RTC_Alarm_IRQHandler",       some "USBWakeUp_IRQHandler",
  some "TIM8_BRK_IRQHandler",        some "TIM8_UP_IRQHandler",
  some "TIM8_TRG_COM_IRQHandler",    some "TIM8_CC_IRQHandler",
  some "ADC3_IRQHandler",            none, none,
  some "SPI3_IRQHandler",            some "UART4_IRQHandler",
  some "UART5_IRQHandler",           some "TIM6_DAC_IRQHandler",
  some "TIM7_IRQHandler",
  some "DMA2_Channel1_IRQHandler",   some "DMA2_Channel2_IRQHandler",
  some "DMA2_Channel3_IRQHandler",   some "DMA2_Channel4_IRQHandler",
  some "DMA2_Channel5_IRQHandler",   some "ADC4_IRQHandler",
  none, none,
  some "COMP1_2_3_IRQHandler",       some "COMP4_5_6_IRQHandler",
  some "COMP7_IRQHandler",           none, none, none, none, none,
  some "I2C3_EV_IRQHandler",         some "I2C3_ER_IRQHandler",
  some "USB_HP_IRQHandler",          some "USB_LP_IRQHandler",
  some "USBWakeUp_RMP_IRQHandler",
  some "TIM20_BRK_IRQHandler",       some "TIM20_UP_IRQHandler",
  some "TIM20_TRG_COM_IRQHandler",   some "TIM20_CC_IRQHandler",
  some "FPU_IRQHandler",             some "SPI4_IRQHandler"]

/-- _F4_IRQ_NAMES from compiler.py. -/
def F4_IRQ_NAMES : List (Option String) := [
  some "WWDG_IRQHandler",            some "PVD_IRQHandler",
  some "TAMP_STAMP_IRQHandler",      some "RTC_WKUP_IRQHandler",
  some "FLASH_IRQHandler",           some "RCC_IRQHandler",
  some "EXTI0_IRQHandler",           some "EXTI1_IRQHandler",
  some "EXTI2_IRQHandler",           some "EXTI3_IRQHandler",
  some "EXTI4_IRQHandler",
  some "DMA1_Stream0_IRQHandler",    some "DMA1_Stream1_IRQHandler",
  some "DMA1_Stream2_IRQHandler",    some "DMA1_Stream3_IRQHandler",
  some "DMA1_Stream4_IRQHandler",    some "DMA1_Stream5_IRQHandler",
  some "DMA1_Stream6_IRQHandler",    some "ADC_IRQHandler",
  some "CAN1_TX_IRQHandler",         some "CAN1_RX0_IRQHandler",
  some "CAN1_RX1_IRQHandler",        some "CAN1_SCE_IRQHandler",
  some "EXTI9_5_IRQHandler",
  some "TIM1_BRK_TIM9_IRQHandler",   some "TIM1_UP_TIM10_IRQHandler",
  some "TIM1_TRG_COM_TIM11_IRQHandler", some "TIM1_CC_IRQHandler",
  some "TIM2_IRQHandler",            some "TIM3_IRQHandler",
  some "TIM4_IRQHandler",
  some "I2C1_EV_IRQHandler",         some "I2C1_ER_IRQHandler",
  some "I2C2_EV_IRQHandler",         some "I2C2_ER_IRQHandler",
  some "SPI1_IRQHandler",            some "SPI2_IRQHandler",
  some "USART1_IRQHandler",          some "USART2_IRQHandler",
  some "USART3_IRQHandler",          some "EXTI15_10_IRQHandler",
  some "RTC_Alarm_IRQHandler",       some "OTG_FS_WKUP_IRQHandler",
  some "TIM8_BRK_TIM12_IRQHandler",  some "TIM8_UP_TIM13_IRQHandler",
  some "TIM8_TRG_COM_TIM14_IRQHandler", some "TIM8_CC_IRQHandler",
  some "DMA1_Stream7_IRQHandler",    some "FSMC_IRQHandler",
  some "SDIO_IRQHandler",            some "TIM5_IRQHandler",
  some "SPI3_IRQHandler",            some "UART4_IRQHandler",
  some "UART5_IRQHandler",           some "TIM6_DAC_IRQHandler",
  some "TIM7_IRQHandler",
  some "DMA2_Stream0_IRQHandler",    some "DMA2_Stream1_IRQHandler",
  some "DMA2_Stream2_IRQHandler",    some "DMA2_Stream3_IRQHandler",
  some "DMA2_Stream4_IRQHandler",    some "ETH_IRQHandler",
  some "ETH_WKUP_IRQHandler",        some "CAN2_TX_IRQHandler",
  some "CAN2_RX0_IRQHandler",        some "CAN2_RX1_IRQHandler",
  some "CAN2_SCE_IRQHandler",        some "OTG_FS_IRQHandler",
  some "DMA2_Stream5_IRQHandler",    some "DMA2_Stream6_IRQHandler",
  some "DMA2_Stream7_IRQHandler",    some "USART6_IRQHandler",
  some "I2C3_EV_IRQHandler",         some "I2C3_ER_IRQHandler",
  some "OTG_HS_EP1_OUT_IRQHandler",  some "OTG_HS_EP1_IN_IRQHandler",
  some "OTG_HS_WKUP_IRQHandler",     some "OTG_HS_IRQHandler",
  some "DCMI_IRQHandler",            none,
  some "HASH_RNG_IRQHandler",        some "FPU_IRQHandler"]

/-- _FAMILY_IRQ_NAMES from compiler.py. -/
def FAMILY_IRQ_NAMES : List (String × List (Option String)) :=
  [("f0", F0_IRQ_NAMES), ("f1", F1_IRQ_NAMES), ("f3", F3_IRQ_NAMES), ("f4", F4_IRQ_NAMES)]

/-- _FAMILY_IRQ_NAMES.get(family, _F1_IRQ_NAMES) from set_chip. -/
def familyIrqNames (family : String) : List (Option String) :=
  ((FAMILY_IRQ_NAMES.find? (fun p => p.1 == family)).map (fun p => p.2)).getD F1_IRQ_NAMES

/-- Python truthiness of an IRQ slot (None and the empty string are falsy). -/
def pyTruthy : Option String → Bool
  | none => false
  | some s => !(s == "")

/-- The word emitted in the vector table for one IRQ slot of _gen_startup:
the handler name for a truthy slot, the zero word for a reserved slot. -/
def vecWordOf (o : Option String) : String :=
  if pyTruthy o then o.getD "" else "0"

/-- One vec_lines entry of _gen_startup, as emitted in the output text. -/
def vecLine (o : Option String) : String :=
  if pyTruthy o then "  .word " ++ o.getD "" else "  .word 0  /* reserved */"

/-- One weak_lines entry of _gen_startup (a weak alias to Default_Handler). -/
def weakAliasDecl (n : String) : String :=
  ".weak " ++ n ++ "\n.thumb_set " ++ n ++ ", Default_Handler"

/-- The words of the fixed core part of the vector table in the _gen_startup
template: stack top, reset, NMI, hard fault, mem-manage, bus fault, usage
fault, four reserved zero words, SVCall, debug monitor, one reserved zero
word, PendSV, SysTick (16 words in total). -/
def startupCoreVecWords : List String :=
  ["_estack", "Reset_Handler", "NMI_Handler", "HardFault_Handler", "MemManage_Handler",
   "BusFault_Handler", "UsageFault_Handler", "0", "0", "0", "0",
   "SVC_Handler", "DebugMon_Handler", "0", "PendSV_Handler", "SysTick_Handler"]

/-- The complete sequence of vector-table words emitted by _gen_startup:
the 16 fixed core words of the template followed by one word per entry of
irq_names (vec_section). -/
def startupVectorWords (irq_names : List (Option String)) : List String :=
  startupCoreVecWords ++ irq_names.map vecWordOf

/-- The names given weak aliases in the fixed tail of the _gen_startup
template (core exception handlers and SystemInit). -/
def startupCoreWeakNames : List String :=
  ["NMI_Handler", "HardFault_Handler", "MemManage_Handler", "BusFault_Handler",
   "UsageFault_Handler", "SVC_Handler", "DebugMon_Handler", "PendSV_Handler",
   "SysTick_Handler", "SystemInit"]

/-- The IRQ names given weak aliases by the weak_section loop of
_gen_startup (truthy entries only; reserved slots are skipped). -/
def startupWeakIrqNames (irq_names : List (Option String)) : List String :=
  irq_names.filterMap (fun o => if pyTruthy o then o else none)

/-- All names declared as weak aliases to Default_Handler in the output of
_gen_startup, in emission order. -/
def startupWeakNames (irq_names : List (Option String)) : List String :=
  startupCoreWeakNames ++ startupWeakIrqNames irq_names

/-- The output of _gen_startup, structured: the target cpu, the sequence of
vector-table words, the vec_section lines, and the weak_section alias
declarations, exactly as assembled by the Python function. -/
structure StartupCode where
  cpu : String
  vectorWords : List String
  vecLines : List String
  weakLines : List String
  deriving Repr, DecidableEq

/-- _gen_startup from compiler.py (structured form of the emitted text). -/
def gen_startup (cpu : String) (irq_names : List (Option String)) : StartupCode :=
  { cpu := cpu
    vectorWords := startupVectorWords irq_names
    vecLines := irq_names.map vecLine
    weakLines := (startupWeakIrqNames irq_names).map weakAliasDecl }

/-- The decimal digit characters of a natural number, most significant
first (how Python string interpolation prints a nonnegative int). -/
def natDecChars (n : Nat) : List Char :=
  if h : n < 10 then [Char.ofNat (48 + n)]
  else natDecChars (n / 10) ++ [Char.ofNat (48 + n % 10)]
decreasing_by exact Nat.div_lt_self (by omega) (by omega)

/-- Decimal rendering of a natural number, as interpolated by the Python
f-strings of the generators. -/
def pyNatRepr (n : Nat) : String := ⟨natDecChars n⟩

/-- Value of a decimal digit string read left to right. -/
def decDigitsVal (l : List Char) : Nat :=
  l.foldl (fun a c => a * 10 + (c.toNat - 48)) 0

def isDecDigit (c : Char) : Bool := '0' ≤ c && c ≤ '9'

/-- GNU ld semantics of a MEMORY LENGTH literal with a K suffix: the
literal dK denotes d * 1024 bytes. -/
def evalLdSizeLit (s : String) : Option Nat :=
  if s.data.getLast? = some 'K' then
    let ds := s.data.dropLast
    if !ds.isEmpty && ds.all isDecDigit then some (decDigitsVal ds * 1024) else none
  else none

/-- The constant prefix of the _gen_linker_script f-string, up to the FLASH
LENGTH interpolation point. -/
def linkerHead : String :=
  "MEMORY \x7b\n  FLASH (rx)  : ORIGIN = 0x08000000, LENGTH = "

/-- The constant middle of the _gen_linker_script f-string, between the
FLASH and RAM LENGTH interpolation points. -/
def linkerMid : String :=
  "K\n  RAM   (xrw) : ORIGIN = 0x20000000, LENGTH = "

/-- The constant tail of the _gen_linker_script f-string after the RAM
LENGTH interpolation point: stack-top symbol, heap/stack reservation
constants, and the SECTIONS block with its fixed ordering. -/
def linkerTail : String :=
  "K\n\x7d\n_estack = ORIGIN(RAM) + LENGTH(RAM);\n_Min_Heap_Size = 0x200;\n_Min_Stack_Size = 0x400;\nSECTIONS \x7b\n  .isr_vector : \x7b KEEP(*(.isr_vector)) \x7d >FLASH\n  .text : \x7b *(.text*) *(.rodata*) . = ALIGN(4); _etext = .; \x7d >FLASH\n  .init : \x7b KEEP(*(.init)) \x7d >FLASH\n  .fini : \x7b KEEP(*(.fini)) \x7d >FLASH\n  .init_array : \x7b KEEP(*(.init_array*)) \x7d >FLASH\n  .fini_array : \x7b KEEP(*(.fini_array*)) \x7d >FLASH\n  .data : AT(_etext) \x7b _sdata = .; *(.data*) . = ALIGN(4); _edata = .; \x7d >RAM\n  .bss : \x7b _sbss = .; *(.bss*) *(COMMON) . = ALIGN(4); _ebss = .; \x7d >RAM\n  ._user_heap_stack : \x7b . = ALIGN(8); . = . + _Min_Heap_Size; . = . + _Min_Stack_Size; . = ALIGN(8); \x7d >RAM\n  /DISCARD/ : \x7b *(.ARM.*) \x7d\n\x7d\n"

/-- _gen_linker_script from compiler.py: the f-string interleaves the two
interpolated sizes with the three constant fragments. -/
def gen_linker_script (flash_k ram_k : Nat) : String :=
  linkerHead ++ pyNatRepr flash_k ++ linkerMid ++ pyNatRepr ram_k ++ linkerTail

/-- Remainder of s strictly after the first occurrence of pat, or none if
pat does not occur in s. -/
def dropAfterFirst (pat : List Char) : List Char → Option (List Char)
  | [] => if pat.isPrefixOf ([] : List Char) then some [] else none
  | c :: t =>
    if pat.isPrefixOf (c :: t) then some ((c :: t).drop pat.length)
    else dropAfterFirst pat t

/-- Each pattern occurs in s, and in the given order (later patterns are
found strictly after the text matched by earlier ones). -/
def containsInOrder : List Char → List (List Char) → Bool
  | _, [] => true
  | s, p :: ps =>
    match dropAfterFirst p s with
    | some rest => containsInOrder rest ps
    | none => false

/-- _FAMILY_HAL_FILES from compiler.py: the per-family allow-list of HAL
source files (bare file names; the Python code prefixes them with the HAL
Src directory). -/
def FAMILY_HAL_FILES : List (String × List String) := [
  ("f1", [
    "stm32f1xx_hal.c", "stm32f1xx_hal_cortex.c",
    "stm32f1xx_hal_rcc.c", "stm32f1xx_hal_rcc_ex.c",
    "stm32f1xx_hal_gpio.c", "stm32f1xx_hal_gpio_ex.c",
    "stm32f1xx_hal_uart.c", "stm32f1xx_hal_usart.c",
    "stm32f1xx_hal_tim.c", "stm32f1xx_hal_tim_ex.c",
    "stm32f1xx_hal_adc.c", "stm32f1xx_hal_adc_ex.c",
    "stm32f1xx_hal_i2c.c",
    "stm32f1xx_hal_dma.c",
    "stm32f1xx_hal_pwr.c",
    "stm32f1xx_hal_flash.c", "stm32f1xx_hal_flash_ex.c",
    "stm32f1xx_hal_exti.c",
    "stm32f1xx_hal_spi.c",
    "system_stm32f1xx.c"]),
  ("f4", [
    "stm32f4xx_hal.c", "stm32f4xx_hal_cortex.c",
    "stm32f4xx_hal_rcc.c", "stm32f4xx_hal_rcc_ex.c",
    "stm32f4xx_hal_gpio.c",
    "stm32f4xx_hal_uart.c", "stm32f4xx_hal_usart.c",
    "stm32f4xx_hal_tim.c", "stm32f4xx_hal_tim_ex.c",
    "stm32f4xx_hal_adc.c", "stm32f4xx_hal_adc_ex.c",
    "stm32f4xx_hal_i2c.c", "stm32f4xx_hal_i2c_ex.c",
    "stm32f4xx_hal_dma.c", "stm32f4xx_hal_dma_ex.c",
    "stm32f4xx_hal_pwr.c", "stm32f4xx_hal_pwr_ex.c",
    "stm32f4xx_hal_flash.c", "stm32f4xx_hal_flash_ex.c",
    "stm32f4xx_hal_exti.c",
    "stm32f4xx_hal_spi.c",
    "system_stm32f4xx.c"]),
  ("f0", [
    "stm32f0xx_hal.c", "stm32f0xx_hal_cortex.c",
    "stm32f0xx_hal_rcc.c", "stm32f0xx_hal_rcc_ex.c",
    "stm32f0xx_hal_gpio.c",
    "stm32f0xx_hal_uart.c", "stm32f0xx_hal_usart.c",
    "stm32f0xx_hal_tim.c", "stm32f0xx_hal_tim_ex.c",
    "stm32f0xx_hal_adc.c", "stm32f0xx_hal_adc_ex.c",
    "stm32f0xx_hal_i2c.c", "stm32f0xx_hal_i2c_ex.c",
    "stm32f0xx_hal_dma.c",
    "stm32f0xx_hal_pwr.c", "stm32f0xx_hal_pwr_ex.c",
    "stm32f0xx_hal_flash.c", "stm32f0xx_hal_flash_ex.c",
    "stm32f0xx_hal_spi.c",
    "system_stm32f0xx.c"]),
  ("f3", [
    "stm32f3xx_hal.c", "stm32f3xx_hal_cortex.c",
    "stm32f3xx_hal_rcc.c", "stm32f3xx_hal_rcc_ex.c",
    "stm32f3xx_hal_gpio.c",
    "stm32f3xx_hal_uart.c", "stm32f3xx_hal_usart.c",
    "stm32f3xx_hal_tim.c", "stm32f3xx_hal_tim_ex.c",
    "stm32f3xx_hal_adc.c", "stm32f3xx_hal_adc_ex.c",
    "stm32f3xx_hal_i2c.c", "stm32f3xx_hal_i2c_ex.c",
    "stm32f3xx_hal_dma.c",
    "stm32f3xx_hal_pwr.c", "stm32f3xx_hal_pwr_ex.c",
    "stm32f3xx_hal_flash.c", "stm32f3xx_hal_flash_ex.c",
    "stm32f3xx_hal_spi.c",
    "system_stm32f3xx.c"])]

/-- _FAMILY_HAL_FILES.get(family, []) from _find_hal. -/
def familyHalFiles (family : String) : List String :=
  ((FAMILY_HAL_FILES.find? (fun p => p.1 == family)).map (fun p => p.2)).getD []

/-- DEFAULT_CHIP from config.py. -/
def DEFAULT_CHIP : String := "STM32F103C8T6"

/-- The mutable fields of the Compiler object (the build session). -/
structure Session where
  has_gcc : Bool
  has_specs : Bool
  has_hal : Bool
  has_hal_lib : Bool
  hal_inc_dirs : List String
  hal_src_files : List String
  chip_info : Option ChipSpec
  current_family : Option String
  deriving Repr, DecidableEq

/-- The observable state of the HAL directory on disk (paths relative to
HAL_DIR): whether the family header exists under Inc, whether the two
CMSIS include directories exist, and which Src files exist. -/
structure HalDisk where
  incHeaderExists : String → Bool
  cmsisIncludeExists : Bool
  cmsisCoreIncludeExists : Bool
  srcExists : String → Bool

/-- The observable state of the build directory on disk: generated files,
per-family object directories (object-file name to modification time) and
per-family static archives, and the linked/flat output images. -/
structure BuildDisk where
  linkLd : Option String
  startupS : Option StartupCode
  mainC : Option String
  objTime : String → String → Option Nat
  archiveExists : String → Bool
  elf : Bool
  bin : Option Nat

/-- The family header name looked up by _find_hal. -/
def halHeaderName (family : String) : String := "stm32" ++ family ++ "xx_hal.h"

/-- Compiler._find_hal from compiler.py: resets the archive-readiness flag,
reports no HAL when the family header is absent, and otherwise collects
include directories and the allow-listed source files present on disk. -/
def find_hal (family : String) (hd : HalDisk) (s : Session) : Session :=
  let s0 := { s with has_hal_lib := false }
  if !(hd.incHeaderExists (halHeaderName family)) then
    { s0 with has_hal := false, hal_inc_dirs := [], hal_src_files := [] }
  else
    { s0 with
      has_hal := true
      hal_inc_dirs := ["Inc"]
        ++ (if hd.cmsisIncludeExists then ["CMSIS/Include"] else [])
        ++ (if hd.cmsisCoreIncludeExists then ["CMSIS/Core/Include"] else [])
      hal_src_files := (familyHalFiles family).filter hd.srcExists }

/-- Result of Compiler.set_chip: the updated session, the build directory
after writing link.ld and startup.s, the returned chip parameters, and
whether the unknown-chip warning was printed. -/
structure SetChipResult where
  session : Session
  disk : BuildDisk
  info : ChipSpec
  warned : Bool

/-- Compiler.set_chip from compiler.py: resolve the chip (falling back to
CHIP_DB["STM32F103C8"] with a printed warning), write the generated linker
script and startup file, and re-run _find_hal only when the chip family
differs from the current one. -/
def set_chip (chip_name : String) (hd : HalDisk) (s : Session) (bd : BuildDisk) :
    SetChipResult :=
  let looked := lookupChip chip_name
  let info := looked.getD defaultChipSpec
  let s1 := { s with chip_info := some info }
  let bd1 := { bd with
    linkLd := some (gen_linker_script info.flash_k info.ram_k)
    startupS := some (gen_startup info.cpu (familyIrqNames info.family)) }
  let s2 :=
    if some info.family ≠ s.current_family then
      find_hal info.family hd { s1 with current_family := some info.family }
    else s1
  ⟨s2, bd1, info, looked.isNone⟩

/-- Python falsy-default of an optional string: s or default (None and the
empty string both fall back). -/
def pyOrStr (o : Option String) (d : String) : String :=
  match o with
  | none => d
  | some s => if s == "" then d else s

/-- Python str.split(sep) on a character list: splitting the empty string
gives one empty field, and a trailing separator yields a trailing empty
field. -/
def splitOnChar (sep : Char) : List Char → List (List Char)
  | [] => [[]]
  | c :: t =>
    if c = sep then [] :: splitOnChar sep t
    else
      match splitOnChar sep t with
      | [] => [[c]]
      | h :: t2 => (c :: h) :: t2

/-- Python s.split(sep) on strings. -/
def pySplit (s : String) (sep : Char) : List String :=
  (splitOnChar sep s.data).map (fun l => ⟨l⟩)

/-- Python sep.join(ls) for a one-character separator. -/
def joinStrings (sep : List Char) (ls : List String) : String :=
  ⟨List.intercalate sep (ls.map String.data)⟩

/-- Python Path(src).stem: the final path component without its last
extension (our sources are plain names with a single dot, such as
stm32f1xx_hal.c). -/
def pyStem (s : String) : String :=
  let base := (splitOnChar '/' s.data).getLastD s.data
  let parts := splitOnChar '.' base
  if parts.length ≤ 1 then ⟨base⟩ else ⟨List.intercalate ['.'] parts.dropLast⟩

/-- The object file name obj_dir / (src stem plus .o) used by
precompile_hal, relative to the per-family object directory. -/
def objNameOf (src : String) : String := pyStem src ++ ".o"

/-- The staleness test of precompile_hal: not obj.exists() or
obj.st_mtime less than src.st_mtime. -/
def staleObj (objT : Option Nat) (srcT : Nat) : Bool :=
  match objT with
  | none => true
  | some t => t < srcT

/-- Record an object file written at time t in the family object dir. -/
def BuildDisk.setObj (bd : BuildDisk) (family obj : String) (t : Nat) : BuildDisk :=
  { bd with objTime := fun fa o =>
      if fa = family ∧ o = obj then some t else bd.objTime fa o }

/-- Outcomes of the external toolchain, as an oracle: per-unit compiler
success for the HAL precompile loop, and archiver success. -/
structure ToolEnv where
  gccCompileOk : String → Bool
  arOk : Bool

/-- Result of Compiler.precompile_hal plus an instrumentation of how many
compiler and archiver child processes were spawned. -/
structure PrecompileResult where
  ret : Bool
  session : Session
  disk : BuildDisk
  gccCalls : Nat
  arCalls : Nat

/-- The per-unit compile loop of precompile_hal: one compiler invocation
per stale unit, stopping at the first failure; a successful invocation
writes the object file (modelled as mtime now). Returns the number of
invocations, overall success, and the updated disk. -/
def runHalCompiles (env : ToolEnv) (family : String) (now : Nat) :
    List String → BuildDisk → Nat × Bool × BuildDisk
  | [], bd => (0, true, bd)
  | src :: rest, bd =>
    if env.gccCompileOk src then
      let out := runHalCompiles env family now rest (bd.setObj family (objNameOf src) now)
      (out.1 + 1, out.2.1, out.2.2)
    else (1, false, bd)

/-- Compiler.precompile_hal from compiler.py: guard on HAL, gcc and chip;
compute the stale units; short-circuit when nothing is stale and the
archive exists; otherwise compile the stale units, fail if no object file
exists at all, and re-archive every existing object into the family
static library. srcTime gives each source file its current mtime; now is
the mtime given to newly written objects. -/
def precompile_hal (env : ToolEnv) (now : Nat) (srcTime : String → Nat)
    (s : Session) (bd : BuildDisk) : PrecompileResult :=
  if !(s.has_hal && s.has_gcc && s.chip_info.isSome) then ⟨false, s, bd, 0, 0⟩
  else
    let family := pyOrStr s.current_family "f1"
    let stale := fun src => staleObj (bd.objTime family (objNameOf src)) (srcTime src)
    let to_compile := s.hal_src_files.filter stale
    if to_compile.isEmpty && bd.archiveExists family then
      ⟨true, { s with has_hal_lib := true }, bd, 0, 0⟩
    else
      let out := runHalCompiles env family now to_compile bd
      if !out.2.1 then ⟨false, s, out.2.2, out.1, 0⟩
      else
        let existing := (s.hal_src_files.map objNameOf).filter
          (fun o => (out.2.2.objTime family o).isSome)
        if existing.isEmpty then ⟨false, s, out.2.2, out.1, 0⟩
        else if env.arOk then
          ⟨true, { s with has_hal_lib := true },
            { out.2.2 with archiveExists := fun fa =>
                if fa = family then true else out.2.2.archiveExists fa },
            out.1, 1⟩
        else ⟨false, s, out.2.2, out.1, 1⟩

/-- The error markers recognized by the failure filter of Compiler.compile. -/
def ERROR_MARKERS : List String :=
  ["error:", "undefined reference", "multiple definition",
   "cannot find", "No such file", "fatal:"]

/-- Substring test (Python in operator on str). -/
def listContainsSub (sub : List Char) : List Char → Bool
  | [] => sub.isPrefixOf ([] : List Char)
  | c :: t => sub.isPrefixOf (c :: t) || listContainsSub sub t

/-- Substring test on strings. -/
def strContainsSub (s sub : String) : Bool := listContainsSub sub.data s.data

/-- Whether a diagnostic line contains one of the recognized markers. -/
def hasErrMarker (l : String) : Bool := ERROR_MARKERS.any (fun k => strContainsSub l k)

/-- The stderr lines containing a recognized error marker, in order
(first filter of the failure branch of Compiler.compile). -/
def markerLines (err : String) : List String :=
  (pySplit err '\n').filter hasErrMarker

/-- The second filter of the failure branch: drop lines containing
collect2:, unless that removes everything, in which case keep the
marker lines unchanged. -/
def prunedMarkerLines (err : String) : List String :=
  let l1 := markerLines err
  let l2 := l1.filter (fun l => !(strContainsSub l "collect2:"))
  if l2.isEmpty then l1 else l2

/-- The failure message assembled by Compiler.compile: the first 15 pruned
marker lines joined by newlines, or the first 1000 characters of stderr
when no line contains a recognized marker. -/
def filterCompileErrors (err : String) : String :=
  let lines := prunedMarkerLines err
  if lines.isEmpty then pyTakeLeft err 1000
  else joinStrings ['\n'] (lines.take 15)

/-- Outcome of the single toolchain invocation made by Compiler.compile. -/
inductive GccOutcome where
  | exited (code : Nat) (stderrText : String)
  | timedOut
  | raised (msg : String)

/-- Oracle for the external processes of one Compiler.compile call. -/
structure CompileEnv where
  gcc : GccOutcome
  elfWritten : Bool
  objcopyTimesOut : Bool
  objcopyBin : Option Nat

/-- The caller-facing result record of Compiler.compile. -/
structure CompileResult where
  ok : Bool
  msg : String
  bin_path : Option String
  bin_size : Nat
  deriving Repr, DecidableEq

/-- The build mode selected by the command construction of
Compiler.compile: link against the cached archive, recompile all HAL
sources into the link, or a syntax-only check when no HAL is available. -/
inductive BuildMode where
  | fastLink
  | slowLink
  | syntaxOnly
  deriving Repr, DecidableEq

/-- Which command Compiler.compile builds, as a function of the session. -/
def compileBuildMode (s : Session) : BuildMode :=
  if s.has_hal then (if s.has_hal_lib then .fastLink else .slowLink)
  else .syntaxOnly

/-- The toolchain phase of Compiler.compile, after main.c has been written
and the previous firmware.elf and firmware.bin have been deleted: fail
early when gcc is missing, then run the toolchain and interpret its
outcome; on success with HAL and an elf image, objcopy produces the flat
binary whose size is reported. -/
def compileWithTools (env : CompileEnv) (s : Session) (bd : BuildDisk) :
    CompileResult × Session × BuildDisk :=
  if !s.has_gcc then
    (⟨false, "arm-none-eabi-gcc 未安装", none, 0⟩, s, bd)
  else
    match env.gcc with
    | .exited 0 _ =>
      if s.has_hal && env.elfWritten then
        let bd1 := { bd with elf := true }
        if env.objcopyTimesOut then (⟨false, "编译超时", none, 0⟩, s, bd1)
        else
          let bd2 := { bd1 with bin := env.objcopyBin }
          let sz := env.objcopyBin.getD 0
          (⟨true, "编译成功 (" ++ pyNatRepr sz ++ "B)", some "firmware.bin", sz⟩, s, bd2)
      else (⟨true, "语法检查通过(无HAL)", none, 0⟩, s, bd)
    | .exited _ err => (⟨false, filterCompileErrors err, none, 0⟩, s, bd)
    | .timedOut => (⟨false, "编译超时", none, 0⟩, s, bd)
    | .raised m => (⟨false, m, none, 0⟩, s, bd)

/-- Compiler.compile from compiler.py: default the chip if unset, write
main.c, delete any stale firmware.elf and firmware.bin, then run the
toolchain phase. -/
def compileCode (env : CompileEnv) (hd : HalDisk) (code : String)
    (s : Session) (bd : BuildDisk) : CompileResult × Session × BuildDisk :=
  let sc :=
    if s.chip_info.isNone then
      let r := set_chip DEFAULT_CHIP hd s bd
      (r.session, r.disk)
    else (s, bd)
  compileWithTools env sc.1 { sc.2 with mainC := some code, elf := false, bin := none }

/-- The failure message as described by claim C9 (spec wording): the
stderr lines containing a recognized marker, at most 15, joined; raw tail
of the stream otherwise. Stated from the claim, for comparison with
filterCompileErrors (which is translated from the code). -/
def claimC9ErrMsg (err : String) : String :=
  let lines := markerLines err
  if lines.isEmpty then ⟨err.data.drop (err.data.length - 1000)⟩
  else joinStrings ['\n'] (lines.take 15)

/-- An empty build directory, used by the concrete scenarios. -/
def emptyBuildDisk : BuildDisk :=
  ⟨none, none, none, fun _ _ => none, fun _ => false, false, none⟩

/-- A session fixture: toolchain and HAL present, f1 archive ready,
current chip STM32F103C8. -/
def sessionF1Ready : Session :=
  ⟨true, true, true, true, ["Inc"], familyHalFiles "f1", some defaultChipSpec, some "f1"⟩

/-- A HAL directory fixture where only the f1 family header exists and no
source files are present. -/
def halDiskHeaderOnly : HalDisk :=
  ⟨fun h => h == "stm32f1xx_hal.h", false, false, fun _ => false⟩

/-- The keys of the chip table, in insertion order. -/
def chipKeys : List String := CHIP_DB.map Prod.fst

/-- A HAL directory fixture with the f1 header and exactly one allow-listed
source file present. -/
def halDiskF1OneFile : HalDisk :=
  ⟨fun h => h == "stm32f1xx_hal.h", true, false, fun f => f == "stm32f1xx_hal_gpio.c"⟩

/-- A session fixture with a single HAL source file and no archive yet. -/
def sessionF1OneSrc : Session :=
  ⟨true, true, true, false, ["Inc"], ["stm32f1xx_hal.c"], some defaultChipSpec, some "f1"⟩

/-- A toolchain oracle where every child process succeeds. -/
def envAllOk : ToolEnv := ⟨fun _ => true, true⟩

/-- A concrete stderr stream with one compiler error line and one collect2
noise line, both containing a recognized marker. -/
def errFixture : String :=
  "foo.c:1: error: bad\ncollect2: error: ld returned 1 exit status"

/-- A compile oracle whose toolchain invocation times out. -/
def envTimeoutFixture : CompileEnv := ⟨GccOutcome.timedOut, false, false, none⟩

/-- A build directory still holding a flat binary from an earlier build. -/
def bdStaleBin : BuildDisk := { emptyBuildDisk with bin := some 1234 }

/-- C1: for every CPU core name and every family interrupt-name list, the
startup synthesizer emits a vector table of 16 core words plus one word per
interrupt slot, with the slot at core-offset i holding exactly the word of
entry i (the handler name, or the zero word for a reserved None slot, so no
subsequent slot shifts); and over the four family tables every non-None
entry appears exactly once as a vector-table word and exactly once as a
weak-alias declaration to the default handler. -/
theorem startup_vector_table_correct :
    (∀ (cpu : String) (irq_names : List (Option String)),
        (gen_startup cpu irq_names).vectorWords.length = 16 + irq_names.length ∧
        ∀ i : Nat, (gen_startup cpu irq_names).vectorWords[16 + i]? =
          (irq_names[i]?).map vecWordOf) ∧
    (∀ L ∈ [F0_IRQ_NAMES, F1_IRQ_NAMES, F3_IRQ_NAMES, F4_IRQ_NAMES],
        ∀ name ∈ L.filterMap (fun o => o),
          (startupVectorWords L).count name = 1 ∧
          (startupWeakNames L).count name = 1) := by
  constructor
  · intro cpu irq_names
    constructor
    · simp [gen_startup, startupVectorWords, startupCoreVecWords]
      omega
    · intro i
      show (startupCoreVecWords ++ irq_names.map vecWordOf)[16 + i]? = _
      rw [List.getElem?_append_right (by simp [startupCoreVecWords])]
      simp [startupCoreVecWords]
  · decide

/-- Witness for C1 at concrete inputs: the F1 table with a cortex-m3 core
(68 interrupt slots, hence 84 vector words), the first interrupt name, and
the first reserved F1 slot (index 60). -/
theorem startup_vector_table_correct_witness :
    (gen_startup "cortex-m3" F1_IRQ_NAMES).vectorWords.length = 16 + 68 ∧
    (gen_startup "cortex-m3" F1_IRQ_NAMES).vectorWords[16 + 60]? = some "0" ∧
    (startupVectorWords F1_IRQ_NAMES).count "WWDG_IRQHandler" = 1 ∧
    (startupWeakNames F1_IRQ_NAMES).count "WWDG_IRQHandler" = 1 := by
  have h := startup_vector_table_correct
  have hmem : F1_IRQ_NAMES ∈ [F0_IRQ_NAMES, F1_IRQ_NAMES, F3_IRQ_NAMES, F4_IRQ_NAMES] :=
    List.mem_cons_of_mem _ (List.mem_cons_self _ _)
  have hname := h.2 F1_IRQ_NAMES hmem "WWDG_IRQHandler" (by decide)
  refine ⟨?_, ?_, hname.1, hname.2⟩
  · have := (h.1 "cortex-m3" F1_IRQ_NAMES).1
    simpa using this
  · have := (h.1 "cortex-m3" F1_IRQ_NAMES).2 60
    simpa using this

lemma chipKeys_nodup : chipKeys.Nodup := by decide

lemma chipKeys_length : ∀ k ∈ chipKeys, k.length = 9 ∨ k.length = 11 := by decide

lemma chip_no_proper_key_prefix :
    ∀ p ∈ CHIP_DB, ∀ q ∈ CHIP_DB, p.1.data.isPrefixOf q.1.data = true → p.1 = q.1 := by
  decide

lemma normalizeChip_key : ∀ p ∈ CHIP_DB, normalizeChip p.1 = p.1 := by decide

lemma assoc_find_of_mem {β : Type} (l : List (String × β)) (k : String) (v : β)
    (hnd : (l.map Prod.fst).Nodup) (h : (k, v) ∈ l) :
    (l.find? (fun p => p.1 == k)).map (fun p => p.2) = some v := by
  induction l with
  | nil => cases h
  | cons p t ih =>
    rcases List.mem_cons.mp h with heq | hmem
    · rw [← heq]
      simp [List.find?]
    · have hk : k ∈ t.map Prod.fst := List.mem_map.mpr ⟨(k, v), hmem, rfl⟩
      have hnd' : p.1 ∉ t.map Prod.fst ∧ (t.map Prod.fst).Nodup := by
        simpa [List.nodup_cons] using hnd
      have hne : (p.1 == k) = false := by
        by_contra hcon
        have hbeq : (p.1 == k) = true := by
          cases hb : (p.1 == k) with
          | false => exact absurd hb hcon
          | true => rfl
        have : p.1 = k := by simpa using hbeq
        exact hnd'.1 (this ▸ hk)
      rw [List.find?]
      rw [hne]
      exact ih hnd'.2 hmem

lemma dbFind_of_mem {k : String} {v : ChipSpec} (h : (k, v) ∈ CHIP_DB) :
    dbFind k = some v :=
  assoc_find_of_mem CHIP_DB k v chipKeys_nodup h

lemma dbFind_eq_none {k : String} (h : ∀ p ∈ CHIP_DB, p.1 ≠ k) : dbFind k = none := by
  unfold dbFind
  rw [List.find?_eq_none.mpr]
  · rfl
  · intro p hp
    simpa using h p hp

lemma length_of_dbFind_some {k : String} {v : ChipSpec} (h : dbFind k = some v) :
    k.length = 9 ∨ k.length = 11 := by
  unfold dbFind at h
  cases hf : CHIP_DB.find? (fun p => p.1 == k) with
  | none => rw [hf] at h; cases h
  | some p =>
    have hmem := List.mem_of_find?_eq_some hf
    have hbeq := List.find?_some hf
    have hpk : p.1 = k := by simpa using hbeq
    have := chipKeys_length p.1 (List.mem_map.mpr ⟨p, hmem, rfl⟩)
    rw [hpk] at this
    exact this

lemma normalizeChip_append (a b : String) :
    normalizeChip (a ++ b) = normalizeChip a ++ normalizeChip b := by
  apply String.ext
  simp [normalizeChip, pyUpper, String.data_append]

lemma normalizeChip_length_le (s : String) : (normalizeChip s).length ≤ s.length := by
  show (((pyUpper s).data.filter (fun c => !(c == '-' || c == ' '))).length ≤ s.length)
  have h1 := List.length_filter_le (fun c => !(c == '-' || c == ' ')) (pyUpper s).data
  have h2 : (pyUpper s).data.length = s.length := by
    show (s.data.map Char.toUpper).length = s.data.length
    exact List.length_map _ _
  omega

lemma pyDropRight_append_self (a u : String) : pyDropRight (a ++ u) u.length = a := by
  apply String.ext
  show ((a ++ u).data.take ((a ++ u).data.length - u.length)) = a.data
  rw [String.data_append, List.length_append]
  have h : a.data.length + u.data.length - u.length = a.data.length := by
    show a.data.length + u.data.length - u.data.length = a.data.length
    omega
  rw [h, List.take_left]

lemma pyDropRight_length (s : String) (n : Nat) :
    (pyDropRight s n).length = s.length - n := by
  show (s.data.take (s.data.length - n)).length = s.length - n
  rw [List.length_take]
  show min (s.data.length - n) s.data.length = s.data.length - n
  omega

lemma dbFind_key_append_ne {K u : String} (hK : K ∈ chipKeys) (hu : u.data ≠ []) :
    dbFind (K ++ u) = none := by
  apply dbFind_eq_none
  intro p hp heq
  obtain ⟨q, hq, hqK⟩ := List.mem_map.mp hK
  have hpre : q.1.data.isPrefixOf p.1.data = true := by
    rw [heq, hqK, String.data_append]
    exact List.isPrefixOf_iff_prefix.mpr (List.prefix_append _ _)
  have hqp : q.1 = p.1 := chip_no_proper_key_prefix q hq p hp hpre
  have hKKu : K = K ++ u := hqK.symm.trans (hqp.trans heq)
  have hdata : K.data = K.data ++ u.data := by
    conv_lhs => rw [hKKu]
    exact String.data_append K u
  exact hu (List.self_eq_append_right.mp hdata)

lemma strLength_mk (l : List Char) : String.length ⟨l⟩ = l.length := rfl

lemma pyDropRight_append_one (a : String) (c : Char) :
    pyDropRight (a ++ ⟨[c]⟩) 2 = pyDropRight a 1 := by
  apply String.ext
  show ((a ++ ⟨[c]⟩).data.take ((a ++ ⟨[c]⟩).data.length - 2)) =
    a.data.take (a.data.length - 1)
  rw [String.data_append, List.length_append]
  rw [List.take_append_eq_append_take]
  have h1 : a.data.length + (String.mk [c]).data.length - 2 = a.data.length - 1 := by
    show a.data.length + 1 - 2 = a.data.length - 1
    omega
  rw [h1]
  have h2 : a.data.length - 1 - a.data.length = 0 := by omega
  rw [h2, List.take_zero, List.append_nil]

lemma stripKey_lt (name : String) (n : Nat) (h : n < name.length) :
    stripKey name n = pyDropRight name n := by
  unfold stripKey
  rw [if_pos h]

lemma dbFind_not_key_length {k : String} (h8 : k.length ≠ 9) (h10 : k.length ≠ 11) :
    dbFind k = none := by
  cases hdb : dbFind k with
  | none => rfl
  | some v =>
    rcases length_of_dbFind_some hdb with h | h
    · exact absurd h h8
    · exact absurd h h10

lemma lookupChipName_key_suffix (K : String) (spec : ChipSpec)
    (hmem : (K, spec) ∈ CHIP_DB) (u : String) (hulen : u.length ≤ 2) :
    lookupChipName (K ++ u) = some spec := by
  have hKkey : K ∈ chipKeys := List.mem_map.mpr ⟨(K, spec), hmem, rfl⟩
  have hKlen : K.length = 9 ∨ K.length = 11 := chipKeys_length K hKkey
  obtain ⟨ud⟩ := u
  match ud with
  | [] =>
    have he : K ++ (⟨[]⟩ : String) = K := String.append_empty K
    rw [he]
    unfold lookupChipName
    rw [dbFind_of_mem hmem]
    rfl
  | [c] =>
    have hlen1 : (K ++ (⟨[c]⟩ : String)).length = K.length + 1 := by
      rw [String.length_append]
      rfl
    have hexact : dbFind (K ++ (⟨[c]⟩ : String)) = none :=
      dbFind_key_append_ne hKkey (by simp)
    have hst2 : stripKey (K ++ (⟨[c]⟩ : String)) 2 = pyDropRight K 1 := by
      rw [stripKey_lt _ 2 (by omega), pyDropRight_append_one]
    have hst2none : dbFind (pyDropRight K 1) = none := by
      have hlen := pyDropRight_length K 1
      exact dbFind_not_key_length (by omega) (by omega)
    have hst1 : stripKey (K ++ (⟨[c]⟩ : String)) 1 = K := by
      rw [stripKey_lt _ 1 (by omega)]
      have h := pyDropRight_append_self K ⟨[c]⟩
      rwa [strLength_mk] at h
    unfold lookupChipName
    rw [hexact, hst2, hst2none, hst1, dbFind_of_mem hmem]
    rfl
  | [c1, c2] =>
    have hlen2 : (K ++ (⟨[c1, c2]⟩ : String)).length = K.length + 2 := by
      rw [String.length_append]
      rfl
    have hexact : dbFind (K ++ (⟨[c1, c2]⟩ : String)) = none :=
      dbFind_key_append_ne hKkey (by simp)
    have hst2 : stripKey (K ++ (⟨[c1, c2]⟩ : String)) 2 = K := by
      rw [stripKey_lt _ 2 (by omega)]
      have h := pyDropRight_append_self K ⟨[c1, c2]⟩
      rwa [strLength_mk] at h
    unfold lookupChipName
    rw [hexact, hst2, dbFind_of_mem hmem]
    rfl
  | c1 :: c2 :: c3 :: rest =>
    exfalso
    have : (String.mk (c1 :: c2 :: c3 :: rest)).length = rest.length + 3 := by
      rw [strLength_mk]
      simp
    omega

/-- C4: for every key of the chip table, appending any benign suffix of at
most two trailing characters resolves to the same ChipSpec record as the
bare key (the exact or suffix-stripping steps of the cascade recover the
key, and no other table entry can be hit first). -/
theorem chip_resolve_benign_suffix (K : String) (spec : ChipSpec)
    (hmem : (K, spec) ∈ CHIP_DB) (t : String) (ht : t.length ≤ 2) :
    lookupChip (K ++ t) = some spec := by
  have hKnorm : normalizeChip K = K := normalizeChip_key (K, spec) hmem
  have hnorm : normalizeChip (K ++ t) = K ++ normalizeChip t := by
    rw [normalizeChip_append, hKnorm]
  have hulen : (normalizeChip t).length ≤ 2 := le_trans (normalizeChip_length_le t) ht
  unfold lookupChip
  rw [hnorm]
  exact lookupChipName_key_suffix K spec hmem (normalizeChip t) hulen

/-- Witness for C4: the end-to-end scenario STM32F103C8T6, which resolves
to the STM32F103C8 record, a cortex-m3 with 64 KB flash, 20 KB RAM,
family f1 and no FPU. -/
theorem chip_resolve_benign_suffix_witness :
    lookupChip "STM32F103C8T6" = some defaultChipSpec ∧
    defaultChipSpec.cpu = "cortex-m3" ∧ defaultChipSpec.flash_k = 64 ∧
    defaultChipSpec.ram_k = 20 ∧ defaultChipSpec.family = "f1" ∧
    defaultChipSpec.fpu = false := by
  refine ⟨?_, rfl, rfl, rfl, rfl, rfl⟩
  have h := chip_resolve_benign_suffix "STM32F103C8" defaultChipSpec (by decide)
    "T6" (by decide)
  have happ : "STM32F103C8" ++ "T6" = "STM32F103C8T6" := rfl
  rwa [happ] at h

/-- C5: when the cascade matches nothing, set_chip does not raise: it
returns the fixed default spec (the STM32F103C8 entry) and reports the
unrecognized name through the printed-warning side channel. -/
theorem chip_unknown_falls_back (chip_name : String) (hd : HalDisk)
    (s : Session) (bd : BuildDisk) (h : lookupChip chip_name = none) :
    (set_chip chip_name hd s bd).info = defaultChipSpec ∧
    (set_chip chip_name hd s bd).warned = true := by
  unfold set_chip
  rw [h]
  exact ⟨rfl, rfl⟩

/-- Witness for C5: the unknown chip STM32Q999ZZ matches no cascade
strategy, resolves to the default spec and sets the warning flag. -/
theorem chip_unknown_falls_back_witness :
    lookupChip "STM32Q999ZZ" = none ∧
    (set_chip "STM32Q999ZZ" halDiskHeaderOnly sessionF1Ready emptyBuildDisk).info =
      defaultChipSpec ∧
    (set_chip "STM32Q999ZZ" halDiskHeaderOnly sessionF1Ready emptyBuildDisk).warned =
      true := by
  have h : lookupChip "STM32Q999ZZ" = none := by decide
  exact ⟨h, (chip_unknown_falls_back _ _ _ _ h).1, (chip_unknown_falls_back _ _ _ _ h).2⟩

lemma charDigit_toNat (m : Nat) (h : m < 10) : (Char.ofNat (48 + m)).toNat = 48 + m := by
  interval_cases m <;> decide

lemma charDigit_isDecDigit (m : Nat) (h : m < 10) :
    isDecDigit (Char.ofNat (48 + m)) = true := by
  interval_cases m <;> decide

lemma natDecChars_all_digits (n : Nat) : (natDecChars n).all isDecDigit = true := by
  induction n using Nat.strong_induction_on with
  | _ n ih =>
    rw [natDecChars]
    by_cases h : n < 10
    · rw [dif_pos h]
      simp [charDigit_isDecDigit n h]
    · rw [dif_neg h]
      rw [List.all_append]
      have h1 := ih (n / 10) (Nat.div_lt_self (by omega) (by omega))
      have h2 := charDigit_isDecDigit (n % 10) (Nat.mod_lt _ (by omega))
      simp [h1, h2]

lemma natDecChars_ne_nil (n : Nat) : natDecChars n ≠ [] := by
  rw [natDecChars]
  by_cases h : n < 10
  · rw [dif_pos h]
    simp
  · rw [dif_neg h]
    simp

lemma decDigitsVal_natDecChars (n : Nat) : decDigitsVal (natDecChars n) = n := by
  induction n using Nat.strong_induction_on with
  | _ n ih =>
    rw [natDecChars]
    by_cases h : n < 10
    · rw [dif_pos h]
      show List.foldl (fun a c => a * 10 + (c.toNat - 48)) 0 [Char.ofNat (48 + n)] = n
      rw [List.foldl_cons, List.foldl_nil, charDigit_toNat n h]
      omega
    · rw [dif_neg h]
      unfold decDigitsVal
      rw [List.foldl_append]
      have h1 := ih (n / 10) (Nat.div_lt_self (by omega) (by omega))
      unfold decDigitsVal at h1
      rw [h1, List.foldl_cons, List.foldl_nil,
        charDigit_toNat (n % 10) (Nat.mod_lt _ (by omega))]
      omega

lemma evalLdSizeLit_repr (n : Nat) :
    evalLdSizeLit (pyNatRepr n ++ "K") = some (n * 1024) := by
  unfold evalLdSizeLit pyNatRepr
  have hdata : ((⟨natDecChars n⟩ : String) ++ "K").data = natDecChars n ++ ['K'] :=
    String.data_append _ _
  rw [hdata, List.getLast?_concat, List.dropLast_concat]
  rw [if_pos rfl]
  have hne : (natDecChars n).isEmpty = false := by
    cases hc : natDecChars n with
    | nil => exact absurd hc (natDecChars_ne_nil n)
    | cons a t => rfl
  rw [if_pos (by rw [hne, natDecChars_all_digits]; rfl)]
  rw [decDigitsVal_natDecChars]

lemma listContainsSub_of_isPrefixOf (sub l : List Char) (h : sub.isPrefixOf l = true) :
    listContainsSub sub l = true := by
  cases l with
  | nil => exact h
  | cons c t =>
    unfold listContainsSub
    rw [h]
    rfl

lemma listContainsSub_mid (sub x y : List Char) :
    listContainsSub sub (x ++ (sub ++ y)) = true := by
  induction x with
  | nil =>
    apply listContainsSub_of_isPrefixOf
    exact List.isPrefixOf_iff_prefix.mpr (List.prefix_append _ _)
  | cons c t ih =>
    show listContainsSub sub (c :: (t ++ (sub ++ y))) = true
    unfold listContainsSub
    rw [ih]
    simp

/-- C6: the linker-script generator interleaves the two size literals with
three constant fragments (so the section ordering after the memory map is
identical for all inputs); the output contains the FLASH and RAM LENGTH
literals whose GNU ld value is flashKB * 1024 and ramKB * 1024 bytes; and
the constant tail lists the sections in the fixed claimed order. -/
theorem linker_script_sizes_and_ordering (flash_k ram_k : Nat) :
    gen_linker_script flash_k ram_k =
      linkerHead ++ pyNatRepr flash_k ++ linkerMid ++ pyNatRepr ram_k ++ linkerTail ∧
    strContainsSub (gen_linker_script flash_k ram_k)
      ("LENGTH = " ++ pyNatRepr flash_k ++ "K") = true ∧
    strContainsSub (gen_linker_script flash_k ram_k)
      ("LENGTH = " ++ pyNatRepr ram_k ++ "K") = true ∧
    evalLdSizeLit (pyNatRepr flash_k ++ "K") = some (flash_k * 1024) ∧
    evalLdSizeLit (pyNatRepr ram_k ++ "K") = some (ram_k * 1024) ∧
    containsInOrder linkerTail.data
      ([".isr_vector", ".text", ".init_array", ".fini_array", ".data", ".bss",
        "._user_heap_stack", "/DISCARD/"].map String.data) = true := by
  refine ⟨rfl, ?_, ?_, evalLdSizeLit_repr flash_k, evalLdSizeLit_repr ram_k, by decide⟩
  · unfold strContainsSub
    have hdecomp : (gen_linker_script flash_k ram_k).data =
        "MEMORY \x7b\n  FLASH (rx)  : ORIGIN = 0x08000000, ".data ++
        (("LENGTH = " ++ pyNatRepr flash_k ++ "K").data ++
          ("\n  RAM   (xrw) : ORIGIN = 0x20000000, LENGTH = ".data ++
            ((pyNatRepr ram_k).data ++ linkerTail.data))) := by
      have h1 : linkerHead =
          "MEMORY \x7b\n  FLASH (rx)  : ORIGIN = 0x08000000, " ++ "LENGTH = " := rfl
      have h2 : linkerMid =
          "K" ++ "\n  RAM   (xrw) : ORIGIN = 0x20000000, LENGTH = " := rfl
      simp [gen_linker_script, h1, h2, String.data_append, List.append_assoc]
    rw [hdecomp]
    exact listContainsSub_mid _ _ _
  · unfold strContainsSub
    have hdecomp : (gen_linker_script flash_k ram_k).data =
        (linkerHead.data ++ ((pyNatRepr flash_k).data ++
          "K\n  RAM   (xrw) : ORIGIN = 0x20000000, ".data)) ++
        (("LENGTH = " ++ pyNatRepr ram_k ++ "K").data ++
          "\n\x7d\n_estack = ORIGIN(RAM) + LENGTH(RAM);\n_Min_Heap_Size = 0x200;\n_Min_Stack_Size = 0x400;\nSECTIONS \x7b\n  .isr_vector : \x7b KEEP(*(.isr_vector)) \x7d >FLASH\n  .text : \x7b *(.text*) *(.rodata*) . = ALIGN(4); _etext = .; \x7d >FLASH\n  .init : \x7b KEEP(*(.init)) \x7d >FLASH\n  .fini : \x7b KEEP(*(.fini)) \x7d >FLASH\n  .init_array : \x7b KEEP(*(.init_array*)) \x7d >FLASH\n  .fini_array : \x7b KEEP(*(.fini_array*)) \x7d >FLASH\n  .data : AT(_etext) \x7b _sdata = .; *(.data*) . = ALIGN(4); _edata = .; \x7d >RAM\n  .bss : \x7b _sbss = .; *(.bss*) *(COMMON) . = ALIGN(4); _ebss = .; \x7d >RAM\n  ._user_heap_stack : \x7b . = ALIGN(8); . = . + _Min_Heap_Size; . = . + _Min_Stack_Size; . = ALIGN(8); \x7d >RAM\n  /DISCARD/ : \x7b *(.ARM.*) \x7d\n\x7d\n".data) := by
      have h2 : linkerMid =
          "K\n  RAM   (xrw) : ORIGIN = 0x20000000, " ++ "LENGTH = " := rfl
      have h3 : linkerTail =
          "K" ++ "\n\x7d\n_estack = ORIGIN(RAM) + LENGTH(RAM);\n_Min_Heap_Size = 0x200;\n_Min_Stack_Size = 0x400;\nSECTIONS \x7b\n  .isr_vector : \x7b KEEP(*(.isr_vector)) \x7d >FLASH\n  .text : \x7b *(.text*) *(.rodata*) . = ALIGN(4); _etext = .; \x7d >FLASH\n  .init : \x7b KEEP(*(.init)) \x7d >FLASH\n  .fini : \x7b KEEP(*(.fini)) \x7d >FLASH\n  .init_array : \x7b KEEP(*(.init_array*)) \x7d >FLASH\n  .fini_array : \x7b KEEP(*(.fini_array*)) \x7d >FLASH\n  .data : AT(_etext) \x7b _sdata = .; *(.data*) . = ALIGN(4); _edata = .; \x7d >RAM\n  .bss : \x7b _sbss = .; *(.bss*) *(COMMON) . = ALIGN(4); _ebss = .; \x7d >RAM\n  ._user_heap_stack : \x7b . = ALIGN(8); . = . + _Min_Heap_Size; . = . + _Min_Stack_Size; . = ALIGN(8); \x7d >RAM\n  /DISCARD/ : \x7b *(.ARM.*) \x7d\n\x7d\n" := rfl
      simp [gen_linker_script, h2, h3, String.data_append, List.append_assoc]
    rw [hdecomp]
    exact listContainsSub_mid _ _ _

lemma find_hal_has_hal_lib (family : String) (hd : HalDisk) (s : Session) :
    (find_hal family hd s).has_hal_lib = false := by
  unfold find_hal
  split <;> rfl

/-- C7 (amended): set_chip never touches cached object files or archives on
disk (it only rewrites link.ld and startup.s); it re-resolves the HAL paths
and invalidates the archive-readiness flag exactly when the resolved chip
family differs from the session's current family, and leaves all HAL fields
(including the readiness flag) untouched when the family is unchanged, even
for a distinct chip. -/
theorem set_chip_frame_effects (chip_name : String) (hd : HalDisk)
    (s : Session) (bd : BuildDisk) :
    (set_chip chip_name hd s bd).disk.objTime = bd.objTime ∧
    (set_chip chip_name hd s bd).disk.archiveExists = bd.archiveExists ∧
    (some (set_chip chip_name hd s bd).info.family ≠ s.current_family →
      (set_chip chip_name hd s bd).session =
        find_hal (set_chip chip_name hd s bd).info.family hd
          { s with chip_info := some (set_chip chip_name hd s bd).info,
                   current_family := some (set_chip chip_name hd s bd).info.family } ∧
      (set_chip chip_name hd s bd).session.has_hal_lib = false) ∧
    (some (set_chip chip_name hd s bd).info.family = s.current_family →
      (set_chip chip_name hd s bd).session =
        { s with chip_info := some (set_chip chip_name hd s bd).info }) := by
  have hinfo : (set_chip chip_name hd s bd).info =
      (lookupChip chip_name).getD defaultChipSpec := rfl
  refine ⟨rfl, rfl, ?_, ?_⟩
  · intro hne
    rw [hinfo] at hne
    constructor
    · simp only [set_chip]
      rw [if_pos hne]
    · simp only [set_chip]
      rw [if_pos hne]
      exact find_hal_has_hal_lib _ _ _
  · intro heq
    rw [hinfo] at heq
    simp only [set_chip]
    rw [if_neg (fun hc => hc heq)]

/-- Witness for the amended C7: switching the f1 session to an f4 chip
re-resolves the HAL and clears the readiness flag, and the on-disk object
and archive state is untouched. -/
theorem set_chip_frame_effects_witness :
    (set_chip "STM32F401CC" halDiskHeaderOnly sessionF1Ready emptyBuildDisk).session.has_hal_lib
      = false ∧
    (set_chip "STM32F401CC" halDiskHeaderOnly sessionF1Ready emptyBuildDisk).disk.objTime
      = emptyBuildDisk.objTime := by
  have h := set_chip_frame_effects "STM32F401CC" halDiskHeaderOnly sessionF1Ready emptyBuildDisk
  exact ⟨(h.2.2.1 (by decide)).2, h.1⟩

/-- Counterexample to C7 as stated: switching between two distinct chips of
the same family (STM32F103C8 to STM32F103RE, both f1) does not invalidate
the archive-readiness flag and does not re-resolve the HAL paths. -/
theorem set_chip_same_family_counterexample :
    (set_chip "STM32F103RE" halDiskHeaderOnly sessionF1Ready emptyBuildDisk).info ≠
      defaultChipSpec ∧
    sessionF1Ready.chip_info = some defaultChipSpec ∧
    (set_chip "STM32F103RE" halDiskHeaderOnly sessionF1Ready emptyBuildDisk).session.has_hal_lib
      = true := by
  decide

/-- C8 (amended): when the family header is present the resolved source
list is exactly the family allow-list intersected with the files present on
disk, and HAL availability equals header presence; the engine selects the
syntax-check-only build mode if and only if the header is absent -- a
header with zero present source files still selects a HAL (slow-path)
build, not the syntax-check mode. -/
theorem hal_resolver_partial_install (family : String) (hd : HalDisk) (s : Session) :
    (hd.incHeaderExists (halHeaderName family) = true →
      (find_hal family hd s).hal_src_files =
        (familyHalFiles family).filter hd.srcExists) ∧
    (find_hal family hd s).has_hal = hd.incHeaderExists (halHeaderName family) ∧
    (compileBuildMode (find_hal family hd s) = BuildMode.syntaxOnly ↔
      hd.incHeaderExists (halHeaderName family) = false) := by
  by_cases hh : hd.incHeaderExists (halHeaderName family) = true
  · refine ⟨fun _ => ?_, ?_, ?_⟩
    · simp [find_hal, hh]
    · simp [find_hal, hh]
    · simp [find_hal, hh, compileBuildMode]
  · have hh' : hd.incHeaderExists (halHeaderName family) = false := by
      cases hb : hd.incHeaderExists (halHeaderName family) with
      | false => rfl
      | true => exact absurd hb hh
    refine ⟨fun hcon => absurd hcon hh, ?_, ?_⟩
    · simp [find_hal, hh']
    · simp [find_hal, hh', compileBuildMode]

/-- Witness for the amended C8: with only one allow-listed f1 file on disk,
the resolver returns exactly that file and reports HAL available. -/
theorem hal_resolver_partial_install_witness :
    (find_hal "f1" halDiskF1OneFile sessionF1Ready).hal_src_files =
      ["stm32f1xx_hal_gpio.c"] ∧
    (find_hal "f1" halDiskF1OneFile sessionF1Ready).has_hal = true := by
  have h := hal_resolver_partial_install "f1" halDiskF1OneFile sessionF1Ready
  refine ⟨(h.1 (by decide)).trans (by decide), ?_⟩
  rw [h.2.1]
  decide

/-- Counterexample to C8 as stated: a HAL directory holding the f1 header
but zero allow-listed source files still reports the HAL as available and
selects a HAL build command, not the syntax-check-only mode. -/
theorem hal_header_only_counterexample :
    (find_hal "f1" halDiskHeaderOnly sessionF1Ready).has_hal = true ∧
    (find_hal "f1" halDiskHeaderOnly sessionF1Ready).hal_src_files = [] ∧
    compileBuildMode (find_hal "f1" halDiskHeaderOnly sessionF1Ready) ≠
      BuildMode.syntaxOnly := by
  decide

lemma prunedMarkerLines_sub (err : String) :
    ∀ l ∈ prunedMarkerLines err, l ∈ markerLines err := by
  intro l hl
  unfold prunedMarkerLines at hl
  by_cases he :
      ((markerLines err).filter (fun l => !(strContainsSub l "collect2:"))).isEmpty = true
  · rw [if_pos he] at hl
    exact hl
  · rw [if_neg he] at hl
    exact (List.mem_filter.mp hl).1

lemma prunedMarkerLines_ne_nil (err : String) (h : markerLines err ≠ []) :
    prunedMarkerLines err ≠ [] := by
  unfold prunedMarkerLines
  by_cases he :
      ((markerLines err).filter (fun l => !(strContainsSub l "collect2:"))).isEmpty = true
  · rw [if_pos he]
    exact h
  · rw [if_neg he]
    intro hc
    rw [hc] at he
    exact he rfl

lemma markerLines_marker (err : String) :
    ∀ l ∈ markerLines err, hasErrMarker l = true := by
  intro l hl
  exact (List.mem_filter.mp hl).2

/-- C9 (amended): on a failing toolchain invocation the message is the
marker-containing stderr lines with collect2 noise lines removed (unless
that removal would leave nothing, in which case the marker lines are kept),
capped at 15 lines; when no line contains a recognized marker, the message
falls back to the first 1000 characters of stderr. Every reported line
carries a recognized marker. -/
theorem compile_error_filtering (err : String) :
    (markerLines err = [] → filterCompileErrors err = pyTakeLeft err 1000) ∧
    (markerLines err ≠ [] →
      filterCompileErrors err =
        joinStrings ['\n'] ((prunedMarkerLines err).take 15) ∧
      prunedMarkerLines err ≠ [] ∧
      (∀ l ∈ prunedMarkerLines err, hasErrMarker l = true) ∧
      ((prunedMarkerLines err).take 15).length ≤ 15) := by
  constructor
  · intro h
    have hp : prunedMarkerLines err = [] := by
      unfold prunedMarkerLines
      rw [h]
      simp
    unfold filterCompileErrors
    rw [hp]
    rfl
  · intro h
    have hp := prunedMarkerLines_ne_nil err h
    have hpe : (prunedMarkerLines err).isEmpty = false := by
      cases hc : prunedMarkerLines err with
      | nil => exact absurd hc hp
      | cons a t => rfl
    refine ⟨?_, hp, fun l hl => markerLines_marker err l (prunedMarkerLines_sub err l hl), ?_⟩
    · show (if (prunedMarkerLines err).isEmpty = true then pyTakeLeft err 1000
          else joinStrings ['\n'] ((prunedMarkerLines err).take 15)) =
        joinStrings ['\n'] ((prunedMarkerLines err).take 15)
      rw [hpe]
      rfl
    · rw [List.length_take]
      omega

/-- Witness for the amended C9 at two concrete stderr streams: one with
marker lines (the collect2 line is pruned) and one without any marker
(head fallback). -/
theorem compile_error_filtering_witness :
    filterCompileErrors errFixture =
      joinStrings ['\n'] ((prunedMarkerLines errFixture).take 15) ∧
    prunedMarkerLines errFixture ≠ [] ∧
    filterCompileErrors "just linker noise" = pyTakeLeft "just linker noise" 1000 := by
  have h2 := (compile_error_filtering errFixture).2 (by decide)
  have h1 := (compile_error_filtering "just linker noise").1 (by decide)
  exact ⟨h2.1, h2.2.1, h1⟩

/-- Counterexample to C9 as stated: the message does not consist of all
marker-containing stderr lines; the collect2 line also contains the marker
error: yet is dropped from the message. -/
theorem compile_error_filtering_counterexample :
    filterCompileErrors errFixture ≠ claimC9ErrMsg errFixture ∧
    filterCompileErrors errFixture = "foo.c:1: error: bad" ∧
    strContainsSub "collect2: error: ld returned 1 exit status" "error:" = true := by
  decide

lemma compileWithTools_failure (env : CompileEnv) (s : Session) (bd : BuildDisk)
    (hbin : bd.bin = none) (h : (compileWithTools env s bd).1.ok = false) :
    (compileWithTools env s bd).1.bin_path = none ∧
    (compileWithTools env s bd).1.bin_size = 0 ∧
    (compileWithTools env s bd).2.2.bin = none := by
  rcases env with ⟨gcc, elfW, octo, ocb⟩
  by_cases hg : s.has_gcc
  · cases gcc with
    | exited c errText =>
      cases c with
      | zero =>
        by_cases hh : (s.has_hal && elfW) = true
        · by_cases ho : octo = true
          · refine ⟨?_, ?_, ?_⟩ <;> simp [compileWithTools, hg, hh, ho, hbin]
          · exfalso
            have : (compileWithTools ⟨GccOutcome.exited 0 errText, elfW, octo, ocb⟩ s bd).1.ok
                = true := by
              simp [compileWithTools, hg, hh, ho]
            rw [h] at this
            cases this
        · exfalso
          have : (compileWithTools ⟨GccOutcome.exited 0 errText, elfW, octo, ocb⟩ s bd).1.ok
              = true := by
            simp [compileWithTools, hg, hh]
          rw [h] at this
          cases this
      | succ n =>
        refine ⟨?_, ?_, ?_⟩ <;> simp [compileWithTools, hg, hbin]
    | timedOut =>
      refine ⟨?_, ?_, ?_⟩ <;> simp [compileWithTools, hg, hbin]
    | raised m =>
      refine ⟨?_, ?_, ?_⟩ <;> simp [compileWithTools, hg, hbin]
  · refine ⟨?_, ?_, ?_⟩ <;> simp [compileWithTools, hg, hbin]

/-- C10: compile deletes the previous executable image and flat binary
before invoking the toolchain, so every failing result (missing toolchain,
non-zero exit, timeout, internal exception) reports bin_path None and
bin_size 0, and leaves no stale flat binary on disk. -/
theorem compile_failure_reports_no_binary (env : CompileEnv) (hd : HalDisk)
    (code : String) (s : Session) (bd : BuildDisk)
    (h : (compileCode env hd code s bd).1.ok = false) :
    (compileCode env hd code s bd).1.bin_path = none ∧
    (compileCode env hd code s bd).1.bin_size = 0 ∧
    (compileCode env hd code s bd).2.2.bin = none := by
  unfold compileCode at h ⊢
  exact compileWithTools_failure env _ _ rfl h

/-- Witness for C10: a timed-out toolchain run over a build directory that
still holds a stale 1234-byte binary reports no binary and clears it. -/
theorem compile_failure_reports_no_binary_witness :
    (compileCode envTimeoutFixture halDiskHeaderOnly "int main()\x7b\x7d" sessionF1Ready
      bdStaleBin).1.ok = false ∧
    (compileCode envTimeoutFixture halDiskHeaderOnly "int main()\x7b\x7d" sessionF1Ready
      bdStaleBin).1.bin_path = none ∧
    (compileCode envTimeoutFixture halDiskHeaderOnly "int main()\x7b\x7d" sessionF1Ready
      bdStaleBin).2.2.bin = none := by
  have h := compile_failure_reports_no_binary envTimeoutFixture halDiskHeaderOnly
    "int main()\x7b\x7d" sessionF1Ready bdStaleBin (by decide)
  exact ⟨by decide, h.1, h.2.2⟩

lemma staleObj_false_iff (objT : Option Nat) (srcT : Nat) :
    staleObj objT srcT = false ↔ ∃ t, objT = some t ∧ srcT ≤ t := by
  cases objT with
  | none => simp [staleObj]
  | some t => simp [staleObj]

lemma filter_eq_single {p : String → Bool} {l : List String} {f : String}
    (hf : p f = true) (hothers : ∀ g ∈ l, g ≠ f → p g = false)
    (hcount : l.count f = 1) : l.filter p = [f] := by
  induction l with
  | nil => simp at hcount
  | cons a t ih =>
    by_cases ha : a = f
    · subst ha
      have hc0 : t.count a = 0 := by
        have := List.count_cons_self a t
        omega
      have hnm : a ∉ t := List.count_eq_zero.mp hc0
      have hfil : t.filter p = [] := by
        apply List.filter_eq_nil_iff.mpr
        intro g hg
        have hgne : g ≠ a := fun hge => hnm (hge ▸ hg)
        rw [hothers g (List.mem_cons_of_mem _ hg) hgne]
        simp
      rw [List.filter_cons_of_pos hf, hfil]
    · have hpa : p a = false := hothers a (List.mem_cons_self _ _) ha
      rw [List.filter_cons_of_neg (by simp [hpa])]
      apply ih
      · intro g hg hgne
        exact hothers g (List.mem_cons_of_mem _ hg) hgne
      · rw [← List.count_cons_of_ne (Ne.symm ha) t]
        exact hcount

lemma precompile_hal_main (env : ToolEnv) (now : Nat) (srcTime : String → Nat)
    (s : Session) (bd : BuildDisk)
    (hhal : s.has_hal = true) (hgcc : s.has_gcc = true)
    (hchip : s.chip_info.isSome = true) :
    precompile_hal env now srcTime s bd =
      (if (s.hal_src_files.filter (fun src =>
            staleObj (bd.objTime (pyOrStr s.current_family "f1") (objNameOf src))
              (srcTime src))).isEmpty
          && bd.archiveExists (pyOrStr s.current_family "f1") then
        ⟨true, { s with has_hal_lib := true }, bd, 0, 0⟩
      else
        if !(runHalCompiles env (pyOrStr s.current_family "f1") now
            (s.hal_src_files.filter (fun src =>
              staleObj (bd.objTime (pyOrStr s.current_family "f1") (objNameOf src))
                (srcTime src))) bd).2.1 then
          ⟨false, s,
            (runHalCompiles env (pyOrStr s.current_family "f1") now
              (s.hal_src_files.filter (fun src =>
                staleObj (bd.objTime (pyOrStr s.current_family "f1") (objNameOf src))
                  (srcTime src))) bd).2.2,
            (runHalCompiles env (pyOrStr s.current_family "f1") now
              (s.hal_src_files.filter (fun src =>
                staleObj (bd.objTime (pyOrStr s.current_family "f1") (objNameOf src))
                  (srcTime src))) bd).1, 0⟩
        else
          if ((s.hal_src_files.map objNameOf).filter
              (fun o => ((runHalCompiles env (pyOrStr s.current_family "f1") now
                (s.hal_src_files.filter (fun src =>
                  staleObj (bd.objTime (pyOrStr s.current_family "f1") (objNameOf src))
                    (srcTime src))) bd).2.2.objTime (pyOrStr s.current_family "f1") o).isSome)).isEmpty then
            ⟨false, s,
              (runHalCompiles env (pyOrStr s.current_family "f1") now
                (s.hal_src_files.filter (fun src =>
                  staleObj (bd.objTime (pyOrStr s.current_family "f1") (objNameOf src))
                    (srcTime src))) bd).2.2,
              (runHalCompiles env (pyOrStr s.current_family "f1") now
                (s.hal_src_files.filter (fun src =>
                  staleObj (bd.objTime (pyOrStr s.current_family "f1") (objNameOf src))
                    (srcTime src))) bd).1, 0⟩
          else if env.arOk then
            ⟨true, { s with has_hal_lib := true },
              { (runHalCompiles env (pyOrStr s.current_family "f1") now
                  (s.hal_src_files.filter (fun src =>
                    staleObj (bd.objTime (pyOrStr s.current_family "f1") (objNameOf src))
                      (srcTime src))) bd).2.2 with
                archiveExists := fun fa =>
                  if fa = pyOrStr s.current_family "f1" then true
                  else (runHalCompiles env (pyOrStr s.current_family "f1") now
                    (s.hal_src_files.filter (fun src =>
                      staleObj (bd.objTime (pyOrStr s.current_family "f1") (objNameOf src))
                        (srcTime src))) bd).2.2.archiveExists fa },
              (runHalCompiles env (pyOrStr s.current_family "f1") now
                (s.hal_src_files.filter (fun src =>
                  staleObj (bd.objTime (pyOrStr s.current_family "f1") (objNameOf src))
                    (srcTime src))) bd).1, 1⟩
          else
            ⟨false, s,
              (runHalCompiles env (pyOrStr s.current_family "f1") now
                (s.hal_src_files.filter (fun src =>
                  staleObj (bd.objTime (pyOrStr s.current_family "f1") (objNameOf src))
                    (srcTime src))) bd).2.2,
              (runHalCompiles env (pyOrStr s.current_family "f1") now
                (s.hal_src_files.filter (fun src =>
                  staleObj (bd.objTime (pyOrStr s.current_family "f1") (objNameOf src))
                    (srcTime src))) bd).1, 1⟩) := by
  unfold precompile_hal
  have hguard : (!(s.has_hal && s.has_gcc && s.chip_info.isSome)) = false := by
    rw [hhal, hgcc, hchip]
    rfl
  rw [hguard]
  rfl

lemma runHalCompiles_allOk (env : ToolEnv) (family : String) (now : Nat) :
    ∀ (l : List String) (bd : BuildDisk), (∀ g ∈ l, env.gccCompileOk g = true) →
      (runHalCompiles env family now l bd).1 = l.length ∧
      (runHalCompiles env family now l bd).2.1 = true ∧
      (∀ fa o, (runHalCompiles env family now l bd).2.2.objTime fa o =
        if fa = family ∧ o ∈ l.map objNameOf then some now else bd.objTime fa o) ∧
      (runHalCompiles env family now l bd).2.2.archiveExists = bd.archiveExists := by
  intro l
  induction l with
  | nil =>
    intro bd h
    refine ⟨rfl, rfl, ?_, rfl⟩
    intro fa o
    simp [runHalCompiles]
  | cons src rest ih =>
    intro bd h
    have hsrc : env.gccCompileOk src = true := h src (List.mem_cons_self _ _)
    have hrest : ∀ g ∈ rest, env.gccCompileOk g = true :=
      fun g hg => h g (List.mem_cons_of_mem _ hg)
    obtain ⟨ih1, ih2, ih3, ih4⟩ := ih (bd.setObj family (objNameOf src) now) hrest
    have hstep : runHalCompiles env family now (src :: rest) bd =
        ((runHalCompiles env family now rest (bd.setObj family (objNameOf src) now)).1 + 1,
         (runHalCompiles env family now rest (bd.setObj family (objNameOf src) now)).2.1,
         (runHalCompiles env family now rest (bd.setObj family (objNameOf src) now)).2.2) := by
      simp [runHalCompiles, hsrc]
    rw [hstep]
    refine ⟨?_, ih2, ?_, ?_⟩
    · rw [ih1]
      simp
    · intro fa o
      show (runHalCompiles env family now rest (bd.setObj family (objNameOf src) now)).2.2.objTime fa o = _
      rw [ih3 fa o]
      show (if fa = family ∧ o ∈ rest.map objNameOf then some now
            else if fa = family ∧ o = objNameOf src then some now else bd.objTime fa o) =
        (if fa = family ∧ o ∈ (src :: rest).map objNameOf then some now
         else bd.objTime fa o)
      by_cases h1 : fa = family
      · by_cases h2 : o ∈ rest.map objNameOf
        · simp [h1, h2]
        · by_cases h3 : o = objNameOf src
          · simp [h1, h2, h3]
          · simp [h1, h2, h3]
      · simp [h1]
    · show (runHalCompiles env family now rest (bd.setObj family (objNameOf src) now)).2.2.archiveExists = _
      rw [ih4]
      rfl

/-- C2: a cached object is treated as fresh iff it exists and its mtime is
not older than its source file's; and when exactly one source file is stale
(its mtime advanced past its cached object) while every other cached object
is fresh, re-invoking precompile_hal performs exactly one compiler
invocation (for that one unit) and exactly one archiver invocation, and
succeeds. -/
theorem precompile_freshness_incremental :
    (∀ (objT : Option Nat) (srcT : Nat),
        staleObj objT srcT = false ↔ ∃ t, objT = some t ∧ srcT ≤ t) ∧
    (∀ (env : ToolEnv) (now : Nat) (srcTime : String → Nat) (s : Session)
        (bd : BuildDisk) (f : String),
      s.has_hal = true → s.has_gcc = true → s.chip_info.isSome = true →
      f ∈ s.hal_src_files → s.hal_src_files.count f = 1 →
      staleObj (bd.objTime (pyOrStr s.current_family "f1") (objNameOf f))
        (srcTime f) = true →
      (∀ g ∈ s.hal_src_files, g ≠ f →
        staleObj (bd.objTime (pyOrStr s.current_family "f1") (objNameOf g))
          (srcTime g) = false) →
      env.gccCompileOk f = true → env.arOk = true →
      (precompile_hal env now srcTime s bd).gccCalls = 1 ∧
      (precompile_hal env now srcTime s bd).arCalls = 1 ∧
      (precompile_hal env now srcTime s bd).ret = true) := by
  refine ⟨staleObj_false_iff, ?_⟩
  intro env now srcTime s bd f hhal hgcc hchip hmem hcount hstalef hfresh hgok har
  have hmain := precompile_hal_main env now srcTime s bd hhal hgcc hchip
  have hfilter : s.hal_src_files.filter (fun src =>
      staleObj (bd.objTime (pyOrStr s.current_family "f1") (objNameOf src))
        (srcTime src)) = [f] :=
    filter_eq_single hstalef hfresh hcount
  have hrun : runHalCompiles env (pyOrStr s.current_family "f1") now [f] bd =
      (1, true, bd.setObj (pyOrStr s.current_family "f1") (objNameOf f) now) := by
    simp [runHalCompiles, hgok]
  have hexist : ((s.hal_src_files.map objNameOf).filter
      (fun o => ((bd.setObj (pyOrStr s.current_family "f1") (objNameOf f) now).objTime
        (pyOrStr s.current_family "f1") o).isSome)).isEmpty = false := by
    have hm : objNameOf f ∈ s.hal_src_files.map objNameOf := List.mem_map_of_mem _ hmem
    have hsome : ((bd.setObj (pyOrStr s.current_family "f1") (objNameOf f) now).objTime
        (pyOrStr s.current_family "f1") (objNameOf f)).isSome = true := by
      simp [BuildDisk.setObj]
    have hmf : objNameOf f ∈ (s.hal_src_files.map objNameOf).filter
        (fun o => ((bd.setObj (pyOrStr s.current_family "f1") (objNameOf f) now).objTime
          (pyOrStr s.current_family "f1") o).isSome) :=
      List.mem_filter.mpr ⟨hm, hsome⟩
    cases hb : ((s.hal_src_files.map objNameOf).filter
        (fun o => ((bd.setObj (pyOrStr s.current_family "f1") (objNameOf f) now).objTime
          (pyOrStr s.current_family "f1") o).isSome)).isEmpty with
    | false => rfl
    | true =>
      have hnil := List.isEmpty_iff.mp hb
      rw [hnil] at hmf
      exact absurd hmf (List.not_mem_nil _)
  rw [hmain, hfilter]
  simp only [hrun]
  rw [hexist, har]
  exact ⟨rfl, rfl, rfl⟩

/-- Witness for C2: a one-file f1 session whose only object is missing
(hence stale); one compile and one archive happen and the run succeeds;
plus a concrete instance of the freshness equivalence. -/
theorem precompile_freshness_incremental_witness :
    (precompile_hal envAllOk 5 (fun _ => 5) sessionF1OneSrc emptyBuildDisk).gccCalls = 1 ∧
    (precompile_hal envAllOk 5 (fun _ => 5) sessionF1OneSrc emptyBuildDisk).arCalls = 1 ∧
    (precompile_hal envAllOk 5 (fun _ => 5) sessionF1OneSrc emptyBuildDisk).ret = true ∧
    (staleObj (some 7) 5 = false ∧ staleObj none 5 = true) := by
  have h := precompile_freshness_incremental
  have h2 := h.2 envAllOk 5 (fun _ => 5) sessionF1OneSrc emptyBuildDisk
    "stm32f1xx_hal.c" rfl rfl rfl (by decide) (by decide) (by decide)
    (by intro g hg hne; simp [sessionF1OneSrc] at hg; exact absurd hg hne)
    rfl rfl
  refine ⟨h2.1, h2.2.1, h2.2.2, ?_, by decide⟩
  rw [(h.1 (some 7) 5)]
  exact ⟨7, rfl, by omega⟩

lemma precompile_hal_success (env : ToolEnv) (now : Nat) (srcTime : String → Nat)
    (s : Session) (bd : BuildDisk)
    (hhal : s.has_hal = true) (hgcc : s.has_gcc = true)
    (hchip : s.chip_info.isSome = true)
    (hne : s.hal_src_files ≠ [])
    (hgok : ∀ g ∈ s.hal_src_files, env.gccCompileOk g = true)
    (har : env.arOk = true)
    (hnow : ∀ g ∈ s.hal_src_files, srcTime g ≤ now) :
    (precompile_hal env now srcTime s bd).ret = true ∧
    (precompile_hal env now srcTime s bd).session = { s with has_hal_lib := true } ∧
    (precompile_hal env now srcTime s bd).disk.archiveExists
      (pyOrStr s.current_family "f1") = true ∧
    (∀ g ∈ s.hal_src_files,
      staleObj ((precompile_hal env now srcTime s bd).disk.objTime
        (pyOrStr s.current_family "f1") (objNameOf g)) (srcTime g) = false) := by
  have hmain := precompile_hal_main env now srcTime s bd hhal hgcc hchip
  rw [hmain]
  set fam := pyOrStr s.current_family "f1" with hfamdef
  set TC := s.hal_src_files.filter (fun src =>
    staleObj (bd.objTime fam (objNameOf src)) (srcTime src)) with hTCdef
  by_cases hsc : (TC.isEmpty && bd.archiveExists fam) = true
  · rw [if_pos hsc]
    obtain ⟨hemp, harch⟩ : TC.isEmpty = true ∧ bd.archiveExists fam = true := by
      simpa using hsc
    refine ⟨rfl, rfl, harch, ?_⟩
    intro g hg
    have hnil : TC = [] := List.isEmpty_iff.mp hemp
    have hforall := List.filter_eq_nil_iff.mp (hTCdef ▸ hnil)
    cases hb : staleObj (bd.objTime fam (objNameOf g)) (srcTime g) with
    | false => rfl
    | true => exact absurd hb (by simpa using hforall g hg)
  · rw [if_neg hsc]
    have hgok' : ∀ g ∈ TC, env.gccCompileOk g = true := by
      intro g hg
      rw [hTCdef] at hg
      exact hgok g (List.mem_filter.mp hg).1
    obtain ⟨h1, h2, h3, h4⟩ := runHalCompiles_allOk env fam now TC bd hgok'
    rw [h2]
    have hexist2 : ((s.hal_src_files.map objNameOf).filter
        (fun o => ((runHalCompiles env fam now TC bd).2.2.objTime fam o).isSome)).isEmpty
        = false := by
      obtain ⟨g0, hg0⟩ := List.exists_mem_of_ne_nil s.hal_src_files hne
      have hsome0 : ((runHalCompiles env fam now TC bd).2.2.objTime fam
          (objNameOf g0)).isSome = true := by
        rw [h3 fam (objNameOf g0)]
        by_cases hst : staleObj (bd.objTime fam (objNameOf g0)) (srcTime g0) = true
        · rw [if_pos ⟨rfl, List.mem_map_of_mem _ (hTCdef ▸ List.mem_filter.mpr ⟨hg0, hst⟩)⟩]
          rfl
        · have hst' : staleObj (bd.objTime fam (objNameOf g0)) (srcTime g0) = false := by
            cases hb : staleObj (bd.objTime fam (objNameOf g0)) (srcTime g0) with
            | true => exact absurd hb hst
            | false => rfl
          obtain ⟨t, ht1, ht2⟩ := (staleObj_false_iff _ _).mp hst'
          by_cases hin : (fam = fam ∧ objNameOf g0 ∈ TC.map objNameOf)
          · rw [if_pos hin]
            rfl
          · rw [if_neg hin, ht1]
            rfl
      have hmf : objNameOf g0 ∈ (s.hal_src_files.map objNameOf).filter
          (fun o => ((runHalCompiles env fam now TC bd).2.2.objTime fam o).isSome) :=
        List.mem_filter.mpr ⟨List.mem_map_of_mem _ hg0, hsome0⟩
      cases hb : ((s.hal_src_files.map objNameOf).filter
          (fun o => ((runHalCompiles env fam now TC bd).2.2.objTime fam o).isSome)).isEmpty with
      | false => rfl
      | true =>
        have hnil := List.isEmpty_iff.mp hb
        rw [hnil] at hmf
        exact absurd hmf (List.not_mem_nil _)
    rw [hexist2, har]
    refine ⟨rfl, rfl, ?_, ?_⟩
    · show (if fam = fam then true else
        (runHalCompiles env fam now TC bd).2.2.archiveExists fam) = true
      rw [if_pos rfl]
    · intro g hg
      show staleObj ((runHalCompiles env fam now TC bd).2.2.objTime fam (objNameOf g))
        (srcTime g) = false
      rw [h3 fam (objNameOf g)]
      by_cases hin : (fam = fam ∧ objNameOf g ∈ TC.map objNameOf)
      · rw [if_pos hin]
        have hle := hnow g hg
        simp [staleObj]
        omega
      · rw [if_neg hin]
        by_cases hst : staleObj (bd.objTime fam (objNameOf g)) (srcTime g) = true
        · exact absurd
            ⟨rfl, List.mem_map_of_mem _ (hTCdef ▸ List.mem_filter.mpr ⟨hg, hst⟩)⟩ hin
        · cases hb : staleObj (bd.objTime fam (objNameOf g)) (srcTime g) with
          | true => exact absurd hb hst
          | false => rfl

/-- C3: precompile_hal is idempotent on an unchanged file system: when a
first call succeeds, an immediate second call with no source modifications
short-circuits (no stale files and the archive exists), performing zero
compiler and zero archiver invocations, and both calls report ready. -/
theorem precompile_idempotent (env : ToolEnv) (now : Nat) (srcTime : String → Nat)
    (s : Session) (bd : BuildDisk)
    (hhal : s.has_hal = true) (hgcc : s.has_gcc = true)
    (hchip : s.chip_info.isSome = true)
    (hne : s.hal_src_files ≠ [])
    (hgok : ∀ g ∈ s.hal_src_files, env.gccCompileOk g = true)
    (har : env.arOk = true)
    (hnow : ∀ g ∈ s.hal_src_files, srcTime g ≤ now) :
    (precompile_hal env now srcTime s bd).ret = true ∧
    (precompile_hal env now srcTime (precompile_hal env now srcTime s bd).session
      (precompile_hal env now srcTime s bd).disk).ret = true ∧
    (precompile_hal env now srcTime (precompile_hal env now srcTime s bd).session
      (precompile_hal env now srcTime s bd).disk).gccCalls = 0 ∧
    (precompile_hal env now srcTime (precompile_hal env now srcTime s bd).session
      (precompile_hal env now srcTime s bd).disk).arCalls = 0 := by
  obtain ⟨hr1, hsess, harch, hobj⟩ :=
    precompile_hal_success env now srcTime s bd hhal hgcc hchip hne hgok har hnow
  have hhal2 : (precompile_hal env now srcTime s bd).session.has_hal = true := by
    rw [hsess]
    exact hhal
  have hgcc2 : (precompile_hal env now srcTime s bd).session.has_gcc = true := by
    rw [hsess]
    exact hgcc
  have hchip2 : (precompile_hal env now srcTime s bd).session.chip_info.isSome = true := by
    rw [hsess]
    exact hchip
  have hcf : (precompile_hal env now srcTime s bd).session.current_family =
      s.current_family := by
    rw [hsess]
  have hsf : (precompile_hal env now srcTime s bd).session.hal_src_files =
      s.hal_src_files := by
    rw [hsess]
  have hmain2 := precompile_hal_main env now srcTime
    (precompile_hal env now srcTime s bd).session
    (precompile_hal env now srcTime s bd).disk hhal2 hgcc2 hchip2
  have hfil2 : (precompile_hal env now srcTime s bd).session.hal_src_files.filter
      (fun src => staleObj ((precompile_hal env now srcTime s bd).disk.objTime
        (pyOrStr (precompile_hal env now srcTime s bd).session.current_family "f1")
        (objNameOf src)) (srcTime src)) = [] := by
    apply List.filter_eq_nil_iff.mpr
    intro g hg
    rw [hsf] at hg
    rw [hcf]
    simp [hobj g hg]
  have hcond : (([] : List String).isEmpty &&
      (precompile_hal env now srcTime s bd).disk.archiveExists
        (pyOrStr (precompile_hal env now srcTime s bd).session.current_family "f1"))
      = true := by
    rw [hcf]
    simp [harch]
  rw [hmain2, hfil2, if_pos hcond]
  exact ⟨hr1, rfl, rfl, rfl⟩

/-- Witness for C3 at a concrete one-file f1 session: the first call
succeeds and the immediate second call performs zero compiler and zero
archiver invocations and still reports ready. -/
theorem precompile_idempotent_witness :
    (precompile_hal envAllOk 5 (fun _ => 5) sessionF1OneSrc emptyBuildDisk).ret = true ∧
    (precompile_hal envAllOk 5 (fun _ => 5)
      (precompile_hal envAllOk 5 (fun _ => 5) sessionF1OneSrc emptyBuildDisk).session
      (precompile_hal envAllOk 5 (fun _ => 5) sessionF1OneSrc emptyBuildDisk).disk).ret
      = true ∧
    (precompile_hal envAllOk 5 (fun _ => 5)
      (precompile_hal envAllOk 5 (fun _ => 5) sessionF1OneSrc emptyBuildDisk).session
      (precompile_hal envAllOk 5 (fun _ => 5) sessionF1OneSrc emptyBuildDisk).disk).gccCalls
      = 0 ∧
    (precompile_hal envAllOk 5 (fun _ => 5)
      (precompile_hal envAllOk 5 (fun _ => 5) sessionF1OneSrc emptyBuildDisk).session
      (precompile_hal envAllOk 5 (fun _ => 5) sessionF1OneSrc emptyBuildDisk).disk).arCalls
      = 0 := by
  exact precompile_idempotent envAllOk 5 (fun _ => 5) sessionF1OneSrc emptyBuildDisk
    rfl rfl rfl (by decide) (fun g _ => rfl) rfl (fun g _ => Nat.le_refl 5)

end GaryCli
